import Mathlib

/-!
Verification of the analysis-and-alerting pipeline of the api-monitoring-system
repository, as a shallow embedding in Lean 4.

The embedded code comes from:
  src/models/api.py            (data model: Environment, ApiMetric, Anomaly, Alert, Prediction)
  src/analyzers/error_rate_analyzer.py
  src/analyzers/response_time_analyzer.py
  src/analyzers/cross_environment_analyzer.py
  src/alerting/alert_generator.py
  src/alerting/alert_manager.py
  src/api/routes.py            (alert lifecycle endpoints)

Modelling conventions:
  * Python floats are embedded as rationals; `min`/`max`/comparisons are exact.
  * Timestamps are integers (seconds); `datetime.utcnow()` is an explicit `now`
    parameter where its value matters and the constant 0 where it does not.
  * Machine-learning calls (pyod KNN / IForest, ARIMA) are abstracted as
    oracle parameters (the per-point outlier flags and scores, the forecast);
    everything downstream of those calls is embedded from the source.
  * Python dict grouping preserves first-occurrence key insertion order;
    `keysInOrder` reproduces that order and `groupByKey` the grouping.
  * A Python `set` has no specified iteration order; `list(s)` is modelled by
    an explicit enumeration parameter `enum`, assumed to be a permutation.
  * `uuid.uuid4()` ids are abstracted as a fixed placeholder string; no claim
    depends on the generated ids.
-/

set_option maxRecDepth 200000

namespace ApiMon

/-- Environment enum from src/models/api.py (ON_PREMISES/AWS/AZURE/GCP/OTHER). -/
inductive Env where
  | onPremises
  | aws
  | azure
  | gcp
  | other
deriving DecidableEq, Repr, Inhabited

/-- The `.value` string of the Environment enum. -/
def Env.value : Env → String
  | .onPremises => "on-premises"
  | .aws => "aws"
  | .azure => "azure"
  | .gcp => "gcp"
  | .other => "other"

/-- ApiMetric (legacy model, src/models/api.py lines 91-109): the fields the
analyzers read.  `response_time`, `status_code`, `error` are required fields. -/
structure Metric where
  apiId : String
  timestamp : ℤ
  responseTime : ℚ
  statusCode : ℤ
  error : Bool
  endpoint : String
  method : String
  environment : Env
deriving DecidableEq, Repr, Inhabited

/-- Anomaly (src/models/api.py lines 172-190), restricted to the fields the
analyzers write and the alerting layer reads.  The free-form `context` dict is
embedded by its two keys the alerting layer consumes (`endpoint`, `method`). -/
structure Anomaly where
  id : String
  apiId : String
  type : String
  severity : ℚ
  timestamp : ℤ
  description : String
  metricValue : ℚ
  expectedValue : Option ℚ
  threshold : Option ℚ
  environment : Env
  ctxEndpoint : Option String
  ctxMethod : Option String
deriving DecidableEq, Repr, Inhabited

/-- Prediction (src/models/api.py lines 253-268), restricted to the fields the
analyzers write. -/
structure Prediction where
  id : String
  apiId : String
  type : String
  confidence : ℚ
  predictedFor : ℤ
  description : String
  metricValue : ℚ
  currentValue : Option ℚ
  trend : String
  environment : Env
  ctxEndpoint : Option String
deriving DecidableEq, Repr, Inhabited

/-- `BaseAnalyzer.create_anomaly` (src/analyzers/base_analyzer.py lines 63-107).
The `uuid.uuid4()` id and the `datetime.utcnow()` creation timestamp are
abstracted as fixed values; no claim depends on them. -/
def createAnomaly (apiId type : String) (severity : ℚ) (description : String)
    (metricValue : ℚ) (expectedValue threshold : Option ℚ) (environment : Env)
    (ctxEndpoint ctxMethod : Option String) : Anomaly :=
  { id := "anom-uuid4"
    apiId := apiId
    type := type
    severity := severity
    timestamp := 0
    description := description
    metricValue := metricValue
    expectedValue := expectedValue
    threshold := threshold
    environment := environment
    ctxEndpoint := ctxEndpoint
    ctxMethod := ctxMethod }

/-- `BaseAnalyzer.create_prediction` (src/analyzers/base_analyzer.py lines
109-153), with the same id/timestamp abstraction. -/
def createPrediction (apiId type : String) (confidence : ℚ) (predictedFor : ℤ)
    (description : String) (metricValue : ℚ) (currentValue : Option ℚ)
    (trend : String) (environment : Env) (ctxEndpoint : Option String) :
    Prediction :=
  { id := "pred-uuid4"
    apiId := apiId
    type := type
    confidence := confidence
    predictedFor := predictedFor
    description := description
    metricValue := metricValue
    currentValue := currentValue
    trend := trend
    environment := environment
    ctxEndpoint := ctxEndpoint }

/-! ### Python dict grouping

All analyzers group metrics with the pattern

    if key not in d: d[key] = []
    d[key].append(m)

A Python dict iterates its keys in first-insertion order, and each group holds
the matching elements in their original order. -/

/-- Distinct keys of a list, in order of first occurrence; `seen` is the set
of keys already inserted (the Python loop's `if key not in d`). -/
def keysInOrderAux (key : α → κ) [DecidableEq κ] (seen : List κ) :
    List α → List κ
  | [] => []
  | m :: ms =>
    if key m ∈ seen then keysInOrderAux key seen ms
    else key m :: keysInOrderAux key (key m :: seen) ms

/-- Distinct keys of a list, in order of first occurrence. -/
def keysInOrder (key : α → κ) [DecidableEq κ] (l : List α) : List κ :=
  keysInOrderAux key [] l

/-- Grouping by a key, in Python dict semantics: keys in first-occurrence
order, each group the matching elements in original order. -/
def groupByKey (key : α → κ) [DecidableEq κ] (l : List α) : List (κ × List α) :=
  (keysInOrder key l).map (fun k => (k, l.filter (fun m => key m = k)))

/-- The `f"{metric.method}:{metric.endpoint}"` grouping key used by the
error-rate, response-time and cross-environment analyzers. -/
def eKey (m : Metric) : String := m.method ++ ":" ++ m.endpoint

/-- Python `str.lower()`, as the character-wise map (the library
`String.toLower` computes the same string but its implementation does not
reduce in the kernel). -/
def pyLower (s : String) : String := String.mk (s.data.map Char.toLower)

/-- `np.mean` of the response times of a list of metrics (rational mean; an
empty list, which numpy maps to NaN, is mapped to 0 — every use site below is
guarded by a non-emptiness check in the source). -/
def rtMean (l : List Metric) : ℚ := (l.map Metric.responseTime).sum / l.length

/-- `_calculate_error_rate` (identical in error_rate_analyzer.py lines 187-201
and cross_environment_analyzer.py lines 669-683): failing metrics / total,
0.0 for an empty list. -/
def errorRate (l : List Metric) : ℚ :=
  if l = [] then 0 else (l.countP Metric.error : ℚ) / l.length

/-! ### Error-rate analyzer (src/analyzers/error_rate_analyzer.py) -/

namespace ErrorRateAnalyzer

/-- `min_data_points` of the error-rate analyzer (line 27). -/
def minDataPoints : ℕ := 20

/-- The anomaly emitted for one endpoint group (lines 58-80). -/
def groupAnomaly (apiId endpoint : String) (g : List Metric) : Anomaly :=
  createAnomaly apiId "high_error_rate" (min 1 (errorRate g * 5))
    ("High error rate detected for " ++ endpoint)
    (errorRate g) (some (1/100)) (some (1/20))
    ((g.headI).environment) (some endpoint) none

/-- `ErrorRateAnalyzer.detect_anomalies` (lines 29-85): below 20 total points
return []; group by `method:endpoint`; skip groups below 20 points; emit one
`high_error_rate` anomaly per group whose error rate exceeds 5%. -/
def detectAnomalies (apiId : String) (metrics : List Metric) : List Anomaly :=
  if metrics.length < minDataPoints then []
  else
    (groupByKey eKey metrics).filterMap (fun kg =>
      if kg.2.length < minDataPoints then none
      else if errorRate kg.2 > 1/20 then some (groupAnomaly apiId kg.1 kg.2)
      else none)

/-- `ErrorRateAnalyzer.predict_issues` (lines 87-165).  Each endpoint group is
sorted by timestamp; the most recent hour is compared with the hour before it;
a prediction is emitted when the recent rate is more than 1.5 times the
previous one and above 2%. -/
def predictIssues (now : ℤ) (apiId : String) (metrics : List Metric) :
    List Prediction :=
  if metrics.length < minDataPoints then []
  else
    (groupByKey eKey metrics).filterMap (fun kg =>
      if kg.2.length < minDataPoints then none
      else
        let sorted := kg.2.mergeSort (fun a b => a.timestamp ≤ b.timestamp)
        let recent := sorted.filter (fun m => now - 3600 ≤ m.timestamp)
        let previous := sorted.filter
          (fun m => now - 7200 ≤ m.timestamp ∧ m.timestamp < now - 3600)
        if recent.length < 10 ∨ previous.length < 10 then none
        else
          let recentRate := errorRate recent
          let previousRate := errorRate previous
          if recentRate > previousRate * (3/2) ∧ recentRate > 1/50 then
            let rateChange := recentRate - previousRate
            some (createPrediction apiId "error_rate"
              (min (9/10) (1/2 + recentRate / (1/10)))
              (now + 3600)
              ("Error rate trending upward for " ++ kg.1)
              (recentRate + rateChange) (some recentRate) "increasing"
              ((sorted.headI).environment) (some kg.1))
          else none)

end ErrorRateAnalyzer

/-- Sorting a metric list by timestamp (`list.sort(key=lambda x: x.timestamp)`,
Python's stable sort; `List.mergeSort` is stable). -/
def sortByTs (l : List Metric) : List Metric :=
  l.mergeSort (fun a b => a.timestamp ≤ b.timestamp)

/-- `_group_by_endpoint` as defined identically in response_time_analyzer.py
lines 136-158 and cross_environment_analyzer.py lines 139-161: group by
`method:endpoint`, then sort each group by timestamp. -/
def groupByEndpointSorted (ms : List Metric) : List (String × List Metric) :=
  (groupByKey eKey ms).map (fun kg => (kg.1, sortByTs kg.2))

/-! ### Cross-environment analyzer (src/analyzers/cross_environment_analyzer.py) -/

namespace CrossEnvironmentAnalyzer

/-- `min_data_points` (line 28). -/
def minDataPoints : ℕ := 20

/-- `_group_by_api` (lines 120-137): plain grouping, no sort. -/
def groupByApi (ms : List Metric) : List (String × List Metric) :=
  groupByKey Metric.apiId ms

/-- `_get_environments` (lines 163-173): the set of environments, modelled as
the first-occurrence-ordered list of distinct environments. -/
def envsOf (ms : List Metric) : List Env := keysInOrder Metric.environment ms

/-- `_group_by_environment` (lines 175-196): group by environment, sort each
group by timestamp. -/
def groupByEnvironment (ms : List Metric) : List (Env × List Metric) :=
  (groupByKey Metric.environment ms).map (fun kg => (kg.1, sortByTs kg.2))

/-- The pair loop `for i, env1 in enumerate(vs): for env2 in vs[i+1:]`. -/
def pairsOf : List α → List (α × α)
  | [] => []
  | x :: xs => xs.map (fun y => (x, y)) ++ pairsOf xs

/-- `_check_response_time_discrepancy` (lines 260-326).  The per-environment
stats dict is passed here as the environment's metric group; the mean it
carries is recomputed (`std_response_time` is read but unused in the source).
-/
def checkRtDiscrepancy (apiId endpoint : String) (g1 g2 : List Metric)
    (env1 env2 : Env) : List Anomaly :=
  let rt1 := rtMean g1
  let rt2 := rtMean g2
  let avgRt := (rt1 + rt2) / 2
  let relativeDiff := |rt1 - rt2| / avgRt
  if relativeDiff > 3/10 then
    let severity := min 1 relativeDiff
    let slowerEnv := if rt1 > rt2 then env1 else env2
    let fasterEnv := if rt1 > rt2 then env2 else env1
    let slowerRt := max rt1 rt2
    let fasterRt := min rt1 rt2
    [createAnomaly apiId "cross_environment_response_time" severity
      ("Response time discrepancy between " ++ slowerEnv.value ++ " and "
        ++ fasterEnv.value ++ " environments for " ++ endpoint)
      slowerRt (some fasterRt) (some (fasterRt * (13/10))) slowerEnv
      (some endpoint) none]
  else []

/-- `_check_error_rate_discrepancy` (lines 328-405). -/
def checkErDiscrepancy (apiId endpoint : String) (g1 g2 : List Metric)
    (env1 env2 : Env) : List Anomaly :=
  let er1 := errorRate g1
  let er2 := errorRate g2
  if er1 > 1/20 ∧ er1 > er2 * 2 then
    [createAnomaly apiId "cross_environment_error_rate" (min 1 er1)
      ("Higher error rate in " ++ env1.value ++ " compared to " ++ env2.value
        ++ " for " ++ endpoint)
      er1 (some er2) (some (max (1/20) (er2 * 2))) env1 (some endpoint) none]
  else if er2 > 1/20 ∧ er2 > er1 * 2 then
    [createAnomaly apiId "cross_environment_error_rate" (min 1 er2)
      ("Higher error rate in " ++ env2.value ++ " compared to " ++ env1.value
        ++ " for " ++ endpoint)
      er2 (some er1) (some (max (1/20) (er1 * 2))) env2 (some endpoint) none]
  else []

/-- `_detect_environment_discrepancies` (lines 198-258). -/
def detectEnvironmentDiscrepancies (apiId endpoint : String)
    (ms : List Metric) : List Anomaly :=
  let byEnv := groupByEnvironment ms
  let viable := byEnv.filter (fun kg => minDataPoints ≤ kg.2.length)
  if viable.length < 2 then []
  else
    (pairsOf viable).flatMap (fun p =>
      checkRtDiscrepancy apiId endpoint p.1.2 p.2.2 p.1.1 p.2.1 ++
      checkErDiscrepancy apiId endpoint p.1.2 p.2.2 p.1.1 p.2.1)

/-- One entry of the `env_changes` dict of `_detect_propagation_patterns`. -/
structure EnvChange where
  env : Env
  timestamp : ℤ
  errorRate : ℚ
  responseTime : ℚ
  changeType : List String
deriving DecidableEq, Repr

/-- Consecutive pairs: `for i in range(len(l) - 1): (l[i], l[i+1])`. -/
def adjPairs : List α → List (α × α)
  | x :: y :: rest => (x, y) :: adjPairs (y :: rest)
  | _ => []

/-- `_detect_propagation_patterns` (lines 407-520).  The analyzer's mutable
`self.history` is the explicit `history` association list; `datetime.utcnow()`
is the `now` parameter.  The `.replace("_", " ").title()` prettification of
change names inside the description string is abstracted away (no claim reads
propagation descriptions). -/
def detectPropagationPatterns (now : ℤ) (history : List (String × List Metric))
    (apiId endpoint : String) (ms : List Metric) (environments : List Env) :
    List Anomaly :=
  match history.lookup (apiId ++ ":" ++ endpoint) with
  | none => []
  | some historicalMetrics =>
    let metricsByEnv := groupByEnvironment ms
    let historicalByEnv := groupByEnvironment historicalMetrics
    let recentTime := now - 3600
    let envChanges : List EnvChange := environments.filterMap (fun env =>
      match metricsByEnv.lookup env, historicalByEnv.lookup env with
      | some envMs, some histMs =>
        let recentMetrics := envMs.filter (fun m => recentTime ≤ m.timestamp)
        if recentMetrics = [] then none
        else
          let historicalErrorRate := errorRate histMs
          let recentErrorRate := errorRate recentMetrics
          let historicalRt := rtMean histMs
          let recentRt := rtMean recentMetrics
          let changeType :=
            (if recentErrorRate > historicalErrorRate * 2 ∧
                recentErrorRate > 1/20 then ["error_rate"] else []) ++
            (if recentRt > historicalRt * (3/2) then ["response_time"] else [])
          if changeType = [] then none
          else some { env := env, timestamp := (recentMetrics.headI).timestamp
                      errorRate := recentErrorRate, responseTime := recentRt
                      changeType := changeType }
      | _, _ => none)
    if envChanges.length < 2 then []
    else
      let sortedEnvs := envChanges.mergeSort (fun a b => a.timestamp ≤ b.timestamp)
      (adjPairs sortedEnvs).flatMap (fun p =>
        let timeDiff := p.2.timestamp - p.1.timestamp
        if timeDiff ≤ 1800 then
          let commonChanges := p.1.changeType.filter (· ∈ p.2.changeType)
          if commonChanges = [] then []
          else
            [createAnomaly apiId "cross_environment_propagation" (4/5)
              (String.intercalate " and " commonChanges
                ++ " issue propagating from " ++ p.1.env.value ++ " to "
                ++ p.2.env.value ++ " for " ++ endpoint)
              (if "response_time" ∈ commonChanges then p.2.responseTime
               else p.2.errorRate)
              none none p.2.env (some endpoint) none]
        else [])

/-- `CrossEnvironmentAnalyzer.detect_anomalies` (lines 31-77).  The
`_update_history` side effect only mutates analyzer state; the returned
anomaly list is modelled. -/
def detectAnomalies (now : ℤ) (history : List (String × List Metric))
    (metrics : List Metric) : List Anomaly :=
  if metrics.length < minDataPoints then []
  else
    (groupByApi metrics).flatMap (fun akg =>
      (groupByEndpointSorted akg.2).flatMap (fun ekg =>
        let environments := envsOf ekg.2
        if environments.length ≤ 1 then []
        else
          detectEnvironmentDiscrepancies akg.1 ekg.1 ekg.2 ++
          detectPropagationPatterns now history akg.1 ekg.1 ekg.2 environments))

/-- The `env_order` deployment-topology map (lines 589-595); the dict covers
every Environment value, so the `.get(env, 0)` default is unreachable. -/
def envOrder : Env → ℕ
  | .onPremises => 1
  | .aws => 2
  | .azure => 2
  | .gcp => 2
  | .other => 3

/-- `_predict_environment_issues` (lines 522-667). -/
def predictEnvironmentIssues (now : ℤ) (apiId endpoint : String)
    (ms : List Metric) : List Prediction :=
  let metricsByEnv := groupByEnvironment ms
  let viable := metricsByEnv.filter (fun kg => minDataPoints ≤ kg.2.length)
  if viable.length < 2 then []
  else
    let recentTime := now - 1800
    let problemEnvs := viable.filterMap (fun kg =>
      let recentMetrics := kg.2.filter (fun m => recentTime ≤ m.timestamp)
      if recentMetrics = [] then none
      else
        let recentErrorRate := errorRate recentMetrics
        let issueType :=
          (if recentErrorRate > 1/10 then ["error_rate"] else []) ++
          (if rtMean recentMetrics > rtMean kg.2 * (3/2) then
            ["response_time"] else [])
        if issueType = [] then none else some (kg.1, kg.2, issueType))
    problemEnvs.flatMap (fun pe =>
      let problemOrder := envOrder pe.1
      viable.flatMap (fun tkg =>
        if tkg.1 = pe.1 then []
        else
          let targetOrder := envOrder tkg.1
          if targetOrder ≤ problemOrder then []
          else
            let orderDiff := targetOrder - problemOrder
            let confidence := max (3/5) (1 - (orderDiff : ℚ) * (1/10))
            let predictionTime := now + 1800
            pe.2.2.flatMap (fun issueType =>
              if issueType = "error_rate" then
                [createPrediction apiId "cross_environment_error_propagation"
                  confidence predictionTime
                  ("Error rate increase likely to propagate from "
                    ++ pe.1.value ++ " to " ++ tkg.1.value ++ " for " ++ endpoint)
                  (errorRate pe.2.1) (some (errorRate tkg.2)) "increasing"
                  tkg.1 (some endpoint)]
              else if issueType = "response_time" then
                [createPrediction apiId
                  "cross_environment_response_time_propagation"
                  confidence predictionTime
                  ("Response time increase likely to propagate from "
                    ++ pe.1.value ++ " to " ++ tkg.1.value ++ " for " ++ endpoint)
                  (rtMean pe.2.1) (some (rtMean tkg.2)) "increasing"
                  tkg.1 (some endpoint)]
              else [])))

/-- `CrossEnvironmentAnalyzer.predict_issues` (lines 79-118). -/
def predictIssues (now : ℤ) (metrics : List Metric) : List Prediction :=
  if metrics.length < minDataPoints then []
  else
    (groupByApi metrics).flatMap (fun akg =>
      (groupByEndpointSorted akg.2).flatMap (fun ekg =>
        if (envsOf ekg.2).length ≤ 1 then []
        else predictEnvironmentIssues now akg.1 ekg.1 ekg.2))

end CrossEnvironmentAnalyzer

/-! ### Response-time analyzer (src/analyzers/response_time_analyzer.py)

The KNN and Isolation-Forest outlier models and the ARIMA forecaster are
machine-learning components; their outputs (per-point outlier flags and
scores, the forecast triple) enter the embedding as oracle parameters, and
everything computed from them is embedded from the source. -/

namespace ResponseTimeAnalyzer

/-- `min_data_points` (line 32). -/
def minDataPoints : ℕ := 30

/-- `anomaly_threshold` (line 31): the value 0.95, written `mkRat 95 100` so
that comparisons with concrete oracle scores reduce in the kernel. -/
def anomalyThreshold : ℚ := mkRat 95 100

/-- `_detect_spikes` (lines 160-224).  `flag i` and `score i` are the
`knn.predict` / `knn.decision_scores_` outputs for the i-th point.  Note the
window mean excludes every metric equal (field-wise, pydantic `!=`) to the
flagged one, and that the severity is `min(1.0, (observed-expected)/expected)`
with no lower clamp. -/
def detectSpikes (apiId endpoint : String) (ms : List Metric)
    (flag : ℕ → Bool) (score : ℕ → ℚ) : List Anomaly :=
  ms.enum.filterMap (fun im =>
    if flag im.1 ∧ score im.1 > anomalyThreshold then
      let windowSize := min 10 ms.length
      let startIdx := im.1 - windowSize
      let endIdx := min ms.length (im.1 + windowSize)
      let window := ((ms.take endIdx).drop startIdx).filter (fun x => ¬ (x = im.2))
      let expectedValue := rtMean window
      let threshold := expectedValue * (3/2)
      let severity := min 1 ((im.2.responseTime - expectedValue) / expectedValue)
      some (createAnomaly apiId "response_time_spike" severity
        ("Response time spike detected for " ++ endpoint)
        im.2.responseTime (some expectedValue) (some threshold)
        im.2.environment (some endpoint) (some im.2.method))
    else none)

/-- The consecutive-anomaly scan of `_detect_pattern_changes` (lines 266-276):
an index is recorded whenever it extends a run of at least 3 consecutive
flagged points. -/
def patternIdxsGo (i cnt : ℕ) : List Bool → List ℕ
  | [] => []
  | b :: rest =>
    if b then
      (if 3 ≤ cnt + 1 then [i] else []) ++ patternIdxsGo (i + 1) (cnt + 1) rest
    else patternIdxsGo (i + 1) 0 rest

def patternIdxs (flags : List Bool) : List ℕ := patternIdxsGo 0 0 flags

/-- `_detect_pattern_changes` (lines 226-317).  `histOpt` is
`self.history.get(endpoint)`; `flag i`/`score i` are the Isolation-Forest
predict/decision_function outputs on the i-th current point.  The severity is
`min(1.0, score/0.5)` with no lower clamp. -/
def detectPatternChanges (apiId endpoint : String)
    (histOpt : Option (List Metric)) (ms : List Metric)
    (flag : ℕ → Bool) (score : ℕ → ℚ) : List Anomaly :=
  match histOpt with
  | none => []
  | some hist =>
    if hist.length < minDataPoints then []
    else
      (patternIdxs ((List.range ms.length).map flag)).map (fun i =>
        let m := ms.getD i default
        let expectedValue := rtMean hist
        let threshold := expectedValue * (13/10)
        let severity := min 1 (score i / (1/2))
        createAnomaly apiId "response_time_pattern_change" severity
          ("Response time pattern change detected for " ++ endpoint)
          m.responseTime (some expectedValue) (some threshold) m.environment
          (some endpoint) (some m.method))

/-- `ResponseTimeAnalyzer.detect_anomalies` (lines 35-74); the ML oracles are
per-endpoint-group. -/
def detectAnomalies (apiId : String) (history : String → Option (List Metric))
    (metrics : List Metric) (spikeFlag : String → ℕ → Bool)
    (spikeScore : String → ℕ → ℚ) (patFlag : String → ℕ → Bool)
    (patScore : String → ℕ → ℚ) : List Anomaly :=
  if metrics.length < minDataPoints then []
  else
    (groupByEndpointSorted metrics).flatMap (fun kg =>
      if kg.2.length < minDataPoints then []
      else
        detectSpikes apiId kg.1 kg.2 (spikeFlag kg.1) (spikeScore kg.1) ++
        detectPatternChanges apiId kg.1 (history kg.1) kg.2 (patFlag kg.1)
          (patScore kg.1))

/-- The abstracted output of the pandas-resample/ARIMA part of
`_forecast_response_times`: the 30-minute-ahead forecast value, the last
resampled timestamp, and the resampled 10-point current average used by the
description. -/
def ForecastOracle := String → List Metric → Option (ℚ × ℤ × ℚ)

/-- The description branch of `_forecast_response_times` (lines 362-368):
increase when forecast > 1.2x the current average, decrease when below 0.8x,
otherwise stable.  The numeric percentage interpolated into the Python format
string is abstracted. -/
def forecastDescription (fv avg : ℚ) : String :=
  if fv > avg * (6/5) then
    "Response time projected to increase in 30 minutes"
  else if fv < avg * (4/5) then
    "Response time projected to decrease in 30 minutes"
  else "Response time projected to remain stable in the next 30 minutes"

/-- `_forecast_response_times` (lines 319-374): confidence is the fixed 0.8,
the prediction time is 30 minutes after the last resampled point. -/
def forecastResponseTimes (endpoint : String) (ms : List Metric)
    (oracle : ForecastOracle) : Option (ℚ × ℚ × ℤ × String) :=
  match oracle endpoint ms with
  | none => none
  | some (fv, lastTime, avg) =>
    some (fv, 4/5, lastTime + 1800, forecastDescription fv avg)

/-- `ResponseTimeAnalyzer.predict_issues` (lines 76-134).  `sourceEnv` is
`self.api_source.environment`, which `create_prediction` falls back to because
this call site passes no environment.  The trend (line 110) is a strict
three-way comparison of the forecast against the mean of the last 10 raw
response times. -/
def predictIssues (apiId : String) (sourceEnv : Env) (metrics : List Metric)
    (oracle : ForecastOracle) : List Prediction :=
  if metrics.length < minDataPoints then []
  else
    (groupByEndpointSorted metrics).flatMap (fun kg =>
      if kg.2.length < minDataPoints then []
      else
        match forecastResponseTimes kg.1 kg.2 oracle with
        | none => []
        | some (pv, conf, ts, descr) =>
          let currentValue := rtMean (kg.2.drop (kg.2.length - 10))
          let trend :=
            if pv > currentValue then "increasing"
            else if pv < currentValue then "decreasing"
            else "stable"
          [createPrediction apiId "response_time" conf ts descr pv
            (some currentValue) trend sourceEnv (some kg.1)])

end ResponseTimeAnalyzer

/-! ### Alert generator: severity bucketing
(src/alerting/alert_generator.py lines 21-26 and 97-114) -/

namespace AlertGenerator

/-- `AlertGenerator._get_alert_severity`: the thresholds 0.9/0.7/0.4 from
`severity_thresholds`, tested with `>=` from the top. -/
def getAlertSeverity (maxAnomalySeverity : ℚ) : String :=
  if maxAnomalySeverity ≥ 9/10 then "critical"
  else if maxAnomalySeverity ≥ 7/10 then "high"
  else if maxAnomalySeverity ≥ 2/5 then "medium"
  else "low"

/-- `_get_affected_environments` (lines 116-126): the set of environments of
the anomalies, modelled in first-occurrence order (`anomaly.environment` is a
required pydantic field, so the truthiness filter never drops one). -/
def affectedEnvironments (anoms : List Anomaly) : List Env :=
  keysInOrder Anomaly.environment anoms

/-- Python `f"{x:.2f}"`; the two-decimal rendering is abstracted (no claim
reads the rendered digits). -/
def fmt2 (q : ℚ) : String := toString q

/-- `anomaly_type.replace("_", " ").title()`; anomaly type tags are lowercase
words joined by underscores, on which this agrees with Python `.title()`. -/
def readableTypeOf (s : String) : String :=
  String.intercalate " " ((s.splitOn "_").map String.capitalize)

/-- `max(anomaly.severity for anomaly in anomalies)` on a non-empty group. -/
def maxSeverity : List Anomaly → ℚ
  | [] => 0
  | a :: rest => (rest.map Anomaly.severity).foldl max a.severity

/-- `_generate_alert_text` (lines 128-192), returning (title, description).
`first_anomaly.metric_value` is a required float field, so the
`metric_value is not None` conjunct is always true. -/
def generateAlertText (anoms : List Anomaly) (anomalyType : String)
    (environments : List Env) : String × String :=
  let firstAnomaly := anoms.headI
  let readableType := readableTypeOf anomalyType
  let envStr := String.intercalate ", " (environments.map Env.value)
  let apiName := "API " ++ firstAnomaly.apiId
  let title :=
    if anoms.length = 1 then
      readableType ++ " Anomaly Detected in " ++ apiName
    else "Multiple " ++ readableType ++ " Anomalies Detected in " ++ apiName
  let title :=
    if environments.length = 1 then
      title ++ " (" ++ (environments.headI).value ++ ")"
    else if environments.length > 1 then title ++ " (Multiple Environments)"
    else title
  let description :=
    if anoms.length = 1 then
      let d := firstAnomaly.description
      let d := match firstAnomaly.expectedValue with
        | some ev => d ++ " Current value: " ++ fmt2 firstAnomaly.metricValue
            ++ ", Expected: " ++ fmt2 ev ++ "."
        | none => d
      let d := match firstAnomaly.threshold with
        | some th => d ++ " Threshold: " ++ fmt2 th ++ "."
        | none => d
      d ++ " Environment: " ++ firstAnomaly.environment.value ++ "."
    else
      let d := toString anoms.length ++ " " ++ readableType.toLower
        ++ " anomalies detected in " ++ apiName ++ "."
      let d :=
        if environments.length = 1 then
          d ++ " Environment: " ++ (environments.headI).value ++ "."
        else d ++ " Environments affected: " ++ envStr ++ "."
      let maxSev := maxSeverity anoms
      let avgSev := (anoms.map Anomaly.severity).sum / anoms.length
      d ++ " Max severity: " ++ fmt2 maxSev ++ ", Average severity: "
        ++ fmt2 avgSev ++ "."
  (title, description)

/-- `endpoint.split("/")[-1] if "/" in endpoint else endpoint`. -/
def lastSegment (s : String) : String :=
  let parts := s.splitOn "/"
  if parts.length ≤ 1 then s else parts.getLastD ""

/-- `_generate_tags` (lines 194-224): the anomaly type, one `env:` tag per
distinct environment, one `endpoint:` tag per distinct non-empty simplified
context endpoint (the endpoint set is modelled in first-occurrence order). -/
def generateTags (anoms : List Anomaly) (anomalyType : String) : List String :=
  let envTags := (affectedEnvironments anoms).map (fun e => "env:" ++ e.value)
  let endpoints := keysInOrder id (anoms.filterMap Anomaly.ctxEndpoint)
  let epTags := endpoints.filterMap (fun ep =>
    let simplified := lastSegment ep
    if simplified = "" then none else some ("endpoint:" ++ simplified))
  anomalyType :: envTags ++ epTags

/-- The metadata dict built by `_generate_metadata` (lines 226-258);
`affected_endpoints` is `[]` when absent. -/
structure AlertMetadata where
  anomalyCount : ℕ
  timestamps : List ℤ
  severities : List ℚ
  avgSeverity : ℚ
  affectedEndpoints : List (String × ℕ)
deriving DecidableEq, Repr, Inhabited

/-- `_generate_metadata` (lines 226-258). -/
def generateMetadata (anoms : List Anomaly) : AlertMetadata :=
  let eps := anoms.filterMap (fun a =>
    a.ctxEndpoint.map (fun e => (a.ctxMethod.getD "UNKNOWN") ++ ":" ++ e))
  { anomalyCount := anoms.length
    timestamps := anoms.map Anomaly.timestamp
    severities := anoms.map Anomaly.severity
    avgSeverity := (anoms.map Anomaly.severity).sum / anoms.length
    affectedEndpoints := (keysInOrder id eps).map (fun k => (k, eps.count k)) }

/-- The pydantic `Alert` model (src/models/api.py lines 214-231).  Its
required fields (pydantic `Field(...)`) are `title`, `description`,
`severity`, `created_at`, `anomalies`, `api_id`, `api_name`, `environment`;
`status` defaults to "open", `tags` to `[]`, `metadata` to an empty dict. -/
structure PyAlert where
  id : Option String
  title : String
  description : String
  severity : String
  createdAt : ℤ
  updatedAt : Option ℤ
  status : String
  anomalies : List String
  apiId : String
  apiName : String
  environment : Env
  assignee : Option String
  tags : List String
  metadata : AlertMetadata
deriving DecidableEq, Repr, Inhabited

/-- The keyword arguments of a pydantic `Alert(...)` call: one `Option` per
model field (`none` = keyword not passed).  Keyword arguments whose names are
not fields of the model (pydantic default `Extra.ignore`) are recorded in
`extraKeys` and ignored by validation. -/
structure AlertCtorArgs where
  id : Option String := none
  title : Option String := none
  description : Option String := none
  severity : Option String := none
  createdAt : Option ℤ := none
  updatedAt : Option ℤ := none
  status : Option String := none
  anomalies : Option (List String) := none
  apiId : Option String := none
  apiName : Option String := none
  environment : Option Env := none
  assignee : Option String := none
  tags : Option (List String) := none
  metadata : Option AlertMetadata := none
  extraKeys : List String := []

/-- The required model fields a given `Alert(...)` call fails to supply (in
model field order, as pydantic reports them). -/
def missingRequired (a : AlertCtorArgs) : List String :=
  (if a.title.isNone then ["title"] else []) ++
  (if a.description.isNone then ["description"] else []) ++
  (if a.severity.isNone then ["severity"] else []) ++
  (if a.createdAt.isNone then ["created_at"] else []) ++
  (if a.anomalies.isNone then ["anomalies"] else []) ++
  (if a.apiId.isNone then ["api_id"] else []) ++
  (if a.apiName.isNone then ["api_name"] else []) ++
  (if a.environment.isNone then ["environment"] else [])

/-- Pydantic validation of an `Alert(...)` call: a `ValidationError` listing
the missing required fields, or the validated model with defaults applied. -/
def mkAlert (a : AlertCtorArgs) : Except (List String) PyAlert :=
  match a.title, a.description, a.severity, a.createdAt, a.anomalies,
      a.apiId, a.apiName, a.environment with
  | some t, some d, some s, some c, some ans, some ai, some an, some env =>
    .ok { id := a.id, title := t, description := d, severity := s
          createdAt := c, updatedAt := a.updatedAt
          status := a.status.getD "open", anomalies := ans, apiId := ai
          apiName := an, environment := env, assignee := a.assignee
          tags := a.tags.getD [], metadata := a.metadata.getD default }
  | _, _, _, _, _, _, _, _ => .error (missingRequired a)

/-- The Python exceptions `generate_alerts` can raise. -/
inductive PyExc where
  | valueError
  | validationError (missing : List String)
deriving DecidableEq, Repr

/-- Character-level helper for `split(":", 1)`: the part before the first
colon and the part after it, or `none` when there is no colon. -/
def splitOnceChars : List Char → Option (List Char × List Char)
  | [] => none
  | c :: rest =>
    if c = ':' then some ([], rest)
    else
      match splitOnceChars rest with
      | none => none
      | some p => some (c :: p.1, p.2)

/-- `group_key.split(":", 1)` unpacked into two names; `none` (no colon)
makes the unpacking raise a ValueError. -/
def splitOnce (s : String) : Option (String × String) :=
  (splitOnceChars s.data).map (fun p => (String.mk p.1, String.mk p.2))

/-- `AlertGenerator._create_alert_from_group` (lines 51-95).  The
`Alert(...)` call at lines 81-93 passes the keywords `id`, `title`,
`description`, `severity`, `created_at`, `status`, `anomalies`, `apis`,
`environments`, `tags`, `metadata` — it does NOT pass the model's required
`api_id`, `api_name` or `environment` fields (`apis` and `environments` are
not fields of the model and are ignored as extras). -/
def createAlertFromGroup (groupKey : String) (anoms : List Anomaly) :
    Except PyExc (Option PyAlert) :=
  if anoms = [] then .ok none
  else
    match splitOnce groupKey with
    | none => .error .valueError
    | some (_apiId, anomalyType) =>
      let maxSev := maxSeverity anoms
      let alertSeverity := getAlertSeverity maxSev
      let environments := affectedEnvironments anoms
      let td := generateAlertText anoms anomalyType environments
      match mkAlert
          { id := some "alert-uuid4", title := some td.1
            description := some td.2, severity := some alertSeverity
            createdAt := some 0, status := some "open"
            anomalies := some (anoms.map Anomaly.id)
            tags := some (generateTags anoms anomalyType)
            metadata := some (generateMetadata anoms)
            extraKeys := ["apis", "environments"] } with
      | .ok al => .ok (some al)
      | .error missing => .error (.validationError missing)

/-- `AlertGenerator.generate_alerts` (lines 28-49): empty groups are skipped;
an exception raised for any group propagates out of the call. -/
def generateAlerts : List (String × List Anomaly) → Except PyExc (List PyAlert)
  | [] => .ok []
  | (k, g) :: rest =>
    if g = [] then generateAlerts rest
    else
      match createAlertFromGroup k g with
      | .error e => .error e
      | .ok none => generateAlerts rest
      | .ok (some a) => (generateAlerts rest).map (fun l => a :: l)

end AlertGenerator

/-! ### Alert manager (src/alerting/alert_manager.py) -/

namespace AlertManager

/-- `AlertManager._group_anomalies` (lines 141-161): group by
`f"{anomaly.api_id}:{anomaly.type}"`. -/
def groupAnomalies (anoms : List Anomaly) : List (String × List Anomaly) :=
  groupByKey (fun a => a.apiId ++ ":" ++ a.type) anoms

/-- The two alert fields `_send_notifications` reads. -/
structure AlertRef where
  id : String
  severity : String
deriving DecidableEq, Repr, Inhabited

/-- State threaded through `_send_notifications`: the in-memory
`self.alert_cache` (a Python set, modelled as its insertion-ordered element
list) and the (channel, alert id) delivery attempts made so far. -/
structure NotifyState where
  cache : List String
  sent : List (String × String)
deriving DecidableEq, Repr, Inhabited

/-- `set(list(cache)[-500:])` (line 193).  `enum` models the unspecified
iteration order of the Python set: `list(cache)` is `enum cache`, expected to
be a permutation of the cache. -/
def trimCache (enum : List String → List String) (c : List String) :
    List String :=
  (enum c).drop ((enum c).length - 500)

/-- The body of the per-alert loop of `_send_notifications` (lines 170-196):
skip if the id is cached; skip unless severity (lowercased) is high or
critical; otherwise attempt delivery on every configured channel (per-channel
failures are logged and do not stop the loop), add the id to the cache, and
trim the cache to `set(list(cache)[-500:])` when it exceeds 1000 entries. -/
def notifyAlert (channels : List String) (enum : List String → List String)
    (st : NotifyState) (a : AlertRef) : NotifyState :=
  if a.id ∈ st.cache then st
  else if ¬ (pyLower a.severity ∈ ["high", "critical"]) then st
  else
    let sent := st.sent ++ channels.map (fun c => (c, a.id))
    let cache := st.cache ++ [a.id]
    let cache := if cache.length > 1000 then trimCache enum cache else cache
    { cache := cache, sent := sent }

/-- `AlertManager._send_notifications` (lines 163-196) over a list of alerts. -/
def sendNotifications (channels : List String)
    (enum : List String → List String) (cache0 : List String)
    (alerts : List AlertRef) : NotifyState :=
  alerts.foldl (notifyAlert channels enum) { cache := cache0, sent := [] }

/-- The manager state read and written by `resolve_alert`. -/
structure ManagerState where
  cache : List String
  mongoAvailable : Bool
deriving DecidableEq, Repr, Inhabited

/-- `AlertManager.resolve_alert` (lines 198-226), with the awaited
`db.update_alert_status` call modelled as a returned effect description (the
database collaborator is external).  When MongoDB is unavailable the
operation is a logged no-op; otherwise the status update is issued and the
alert id is removed from the notification-dedup cache. -/
def resolveAlert (st : ManagerState) (alertId resolvedBy : String) :
    ManagerState × List String :=
  if ¬ st.mongoAvailable then (st, [])
  else
    ({ st with cache := st.cache.erase alertId },
      ["update_alert_status:" ++ alertId ++ ":resolved:" ++ resolvedBy])

end AlertManager

/-! ### Alert lifecycle routes (src/api/routes.py lines 310-365) -/

namespace Routes

/-- The outcome surfaced to the HTTP caller: a 200 body, a 404
`HTTPException`, or a 400 `HTTPException`. -/
inductive RouteResult where
  | ok (message : String)
  | notFound (detail : String)
  | badRequest (detail : String)
deriving DecidableEq, Repr

/-- POST `/alerts/.../acknowledge` (lines 310-326); `found` is the
`db.get_alert` result. -/
def acknowledgeRoute (alertId user : String)
    (found : Option AlertGenerator.PyAlert) : RouteResult :=
  match found with
  | none => .notFound "Alert not found"
  | some _ => .ok ("Alert " ++ alertId ++ " acknowledged by " ++ user)

/-- POST `/alerts/.../resolve` (lines 328-344). -/
def resolveRoute (alertId user : String)
    (found : Option AlertGenerator.PyAlert) : RouteResult :=
  match found with
  | none => .notFound "Alert not found"
  | some _ => .ok ("Alert " ++ alertId ++ " resolved by " ++ user)

/-- POST `/alerts/.../snooze` (lines 346-365): 404 when the alert id is
unknown, then 400 for a non-positive duration. -/
def snoozeRoute (alertId : String) (durationMinutes : ℤ) (user : String)
    (found : Option AlertGenerator.PyAlert) : RouteResult :=
  match found with
  | none => .notFound "Alert not found"
  | some _ =>
    if durationMinutes ≤ 0 then .badRequest "Duration must be positive"
    else .ok ("Alert " ++ alertId ++ " snoozed for " ++ toString durationMinutes
      ++ " minutes by " ++ user)

end Routes

/-! ### Concrete inputs used by the claim theorems and witnesses -/

/-- The three anomalies of the grouping-determinism scenario:
api "A"/type "x"/severity 0.5, api "A"/type "x"/severity 0.95,
api "B"/type "x"/severity 0.2. -/
def anomA1 : Anomaly :=
  { id := "a1", apiId := "A", type := "x", severity := 1/2, timestamp := 0
    description := "d1", metricValue := 0, expectedValue := none
    threshold := none, environment := .aws, ctxEndpoint := none
    ctxMethod := none }

def anomA2 : Anomaly :=
  { anomA1 with id := "a2", severity := 19/20 }

def anomB1 : Anomaly :=
  { anomA1 with id := "b1", apiId := "B", severity := 1/5 }

def groupingScenario : List Anomaly := [anomA1, anomA2, anomB1]

/-- 100 metrics on one endpoint, the first 6 failing (6% error rate). -/
def errorScenario : List Metric :=
  (List.range 100).map (fun i =>
    { apiId := "A", timestamp := i, responseTime := 100
      statusCode := if i < 6 then 500 else 200, error := decide (i < 6)
      endpoint := "/orders", method := "GET", environment := .aws })

/-- 20 metrics in environment X (on-premises) with latency 100ms. -/
def crossEnvX : List Metric :=
  (List.range 20).map (fun i =>
    { apiId := "A", timestamp := i, responseTime := 100, statusCode := 200
      error := false, endpoint := "/e", method := "GET"
      environment := .onPremises })

/-- 20 metrics in environment Y (aws) with latency 160ms. -/
def crossEnvY : List Metric :=
  (List.range 20).map (fun i =>
    { apiId := "A", timestamp := 20 + (i : ℤ), responseTime := 160
      statusCode := 200, error := false, endpoint := "/e", method := "GET"
      environment := .aws })

/-- One api/endpoint observed in two environments, no errors: X at 100ms and
Y at 160ms, 20 samples each. -/
def crossEnvScenario : List Metric := crossEnvX ++ crossEnvY

/-- The i-th metric of the spike scenario: 100ms everywhere except a dip to
40ms at index 5. -/
def spikeMetric (i : ℕ) : Metric :=
  { apiId := "A", timestamp := i
    responseTime := if i = 5 then 40 else 100, statusCode := 200
    error := false, endpoint := "/e", method := "GET"
    environment := .aws }

/-- 30 metrics on one endpoint at 100ms with one dip to 40ms at index 5. -/
def spikeScenario : List Metric := (List.range 30).map spikeMetric

/-- A KNN oracle that flags exactly index 5, with outlier score 1 (written
`mkRat 1 1` so the threshold comparison reduces in the kernel). -/
def spikeFlagAt5 : ℕ → Bool := fun i => i == 5

def spikeScoreOne : ℕ → ℚ := fun _ => mkRat 1 1

/-- The ±10-point window around index 5, with the flagged metric excluded, as
`_detect_spikes` computes it. -/
def spikeWindow : List Metric :=
  ((spikeScenario.take 15).drop 0).filter (fun x => ¬ (x = spikeMetric 5))

/-- 30 metrics on one endpoint, all at 100ms. -/
def steadyScenario : List Metric :=
  (List.range 30).map (fun i =>
    { apiId := "A", timestamp := i, responseTime := 100, statusCode := 200
      error := false, endpoint := "/e", method := "GET"
      environment := .aws })

/-- An ARIMA oracle forecasting 110ms (within 20 percent of the 100ms current
average), with last resampled timestamp 29 and resampled average 100. -/
def forecast110 : ResponseTimeAnalyzer.ForecastOracle :=
  fun _ _ => some (110, 29, 100)

/-- The prediction `predict_issues` emits on `steadyScenario` under
`forecast110`. -/
def steadyPrediction : Prediction :=
  { id := "pred-uuid4", apiId := "A", type := "response_time"
    confidence := 4/5, predictedFor := 29 + 1800
    description := "Response time projected to remain stable in the next 30 minutes"
    metricValue := 110, currentValue := some 100, trend := "increasing"
    environment := .aws, ctxEndpoint := some "GET:/e" }

/-- A notification-dedup cache holding 1000 ids b0..b999 (in insertion
order), as a run that has notified 1000 distinct alerts leaves it. -/
def cacheThousand : List String :=
  (List.range 1000).map (fun i => "b" ++ toString i)

/-- A high-severity alert with id "a", not in `cacheThousand`. -/
def alertA : AlertManager.AlertRef := { id := "a", severity := "high" }

/-! ### Facts about the Python-dict grouping -/

theorem mem_keysInOrderAux {key : α → κ} [DecidableEq κ] {l : List α}
    {seen : List κ} {k : κ} :
    k ∈ keysInOrderAux key seen l ↔ k ∉ seen ∧ ∃ m ∈ l, key m = k := by
  induction l generalizing seen with
  | nil => simp [keysInOrderAux]
  | cons m ms ih =>
    rw [keysInOrderAux]
    by_cases hm : key m ∈ seen
    · rw [if_pos hm, ih]
      constructor
      · rintro ⟨hk, x, hx, rfl⟩
        exact ⟨hk, x, List.mem_cons_of_mem _ hx, rfl⟩
      · rintro ⟨hk, x, hx, rfl⟩
        rcases List.mem_cons.mp hx with rfl | hx
        · exact absurd hm hk
        · exact ⟨hk, x, hx, rfl⟩
    · rw [if_neg hm]
      simp only [List.mem_cons, ih, List.mem_cons]
      constructor
      · rintro (rfl | ⟨hk, x, hx, rfl⟩)
        · exact ⟨hm, m, Or.inl rfl, rfl⟩
        · exact ⟨fun hs => hk (Or.inr hs), x, Or.inr hx, rfl⟩
      · rintro ⟨hk, x, (rfl | hx), rfl⟩
        · exact Or.inl rfl
        · by_cases hkm : key x = key m
          · exact Or.inl hkm
          · exact Or.inr ⟨fun h => h.elim hkm hk, x, hx, rfl⟩

theorem mem_keysInOrder {key : α → κ} [DecidableEq κ] {l : List α} {k : κ} :
    k ∈ keysInOrder key l ↔ ∃ m ∈ l, key m = k := by
  rw [keysInOrder, mem_keysInOrderAux]
  simp

theorem keysInOrderAux_nodup {key : α → κ} [DecidableEq κ] (l : List α)
    (seen : List κ) : (keysInOrderAux key seen l).Nodup := by
  induction l generalizing seen with
  | nil => simp [keysInOrderAux]
  | cons m ms ih =>
    rw [keysInOrderAux]
    by_cases hm : key m ∈ seen
    · rw [if_pos hm]; exact ih seen
    · rw [if_neg hm]
      refine List.Nodup.cons ?_ (ih _)
      intro hmem
      exact (mem_keysInOrderAux.mp hmem).1 (List.mem_cons_self ..)

theorem keysInOrder_nodup {key : α → κ} [DecidableEq κ] (l : List α) :
    (keysInOrder key l).Nodup := keysInOrderAux_nodup l []

theorem keysInOrderAux_const {key : α → κ} [DecidableEq κ] {l : List α}
    {k : κ} (hall : ∀ m ∈ l, key m = k) (seen : List κ) :
    keysInOrderAux key seen l =
      if k ∈ seen ∨ l.isEmpty then [] else [k] := by
  induction l generalizing seen with
  | nil => simp [keysInOrderAux]
  | cons m ms ih =>
    have hm : key m = k := hall m (List.mem_cons_self ..)
    have hall2 : ∀ x ∈ ms, key x = k :=
      fun x hx => hall x (List.mem_cons_of_mem _ hx)
    rw [keysInOrderAux, hm]
    by_cases hs : k ∈ seen
    · rw [if_pos hs, ih hall2 seen]
      simp [hs]
    · rw [if_neg hs, ih hall2 (k :: seen)]
      simp [hs]

/-- When every element of a non-empty list has the same key, the key list is
that single key. -/
theorem keysInOrder_const {key : α → κ} [DecidableEq κ] {l : List α} {k : κ}
    (hne : l ≠ []) (hall : ∀ m ∈ l, key m = k) :
    keysInOrder key l = [k] := by
  rw [keysInOrder, keysInOrderAux_const hall]
  simp [hne]

/-! ### Claim C3 -/

/-- C3: for every max anomaly severity s in [0,1], the alert severity bucket
is "critical" iff s ≥ 0.9, "high" iff 0.7 ≤ s < 0.9, "medium" iff
0.4 ≤ s < 0.7, and "low" otherwise; 0.95 maps to critical, 0.75 to high,
0.5 to medium, 0.1 to low, and the boundary values 0.9, 0.7, 0.4 map into
the higher bucket. -/
theorem claim3_severity_bucket_boundaries (s : ℚ) (_h0 : 0 ≤ s) (_h1 : s ≤ 1) :
    ((AlertGenerator.getAlertSeverity s = "critical" ↔ 9/10 ≤ s) ∧
     (AlertGenerator.getAlertSeverity s = "high" ↔ 7/10 ≤ s ∧ s < 9/10) ∧
     (AlertGenerator.getAlertSeverity s = "medium" ↔ 2/5 ≤ s ∧ s < 7/10) ∧
     (AlertGenerator.getAlertSeverity s = "low" ↔ s < 2/5)) ∧
    (AlertGenerator.getAlertSeverity (19/20) = "critical" ∧
     AlertGenerator.getAlertSeverity (3/4) = "high" ∧
     AlertGenerator.getAlertSeverity (1/2) = "medium" ∧
     AlertGenerator.getAlertSeverity (1/10) = "low" ∧
     AlertGenerator.getAlertSeverity (9/10) = "critical" ∧
     AlertGenerator.getAlertSeverity (7/10) = "high" ∧
     AlertGenerator.getAlertSeverity (2/5) = "medium") := by
  constructor
  · unfold AlertGenerator.getAlertSeverity
    split_ifs with ha hb hc <;> refine ⟨?_, ?_, ?_, ?_⟩ <;>
      simp_all <;> intros <;> linarith
  · refine ⟨?_, ?_, ?_, ?_, ?_, ?_, ?_⟩ <;>
      norm_num [AlertGenerator.getAlertSeverity]

/-- Witness for C3 at s = 0.95. -/
theorem claim3_witness :
    AlertGenerator.getAlertSeverity (19/20) = "critical" :=
  (claim3_severity_bucket_boundaries (19/20) (by norm_num) (by norm_num)).2.1

/-! ### Claim C9 -/

/-- C9: the user-facing lifecycle operations acknowledge, resolve and snooze
surface a distinguishable not-found condition (HTTP 404) when the alert id
does not exist, snooze surfaces a distinguishable invalid-argument condition
(HTTP 400) exactly when the requested duration is non-positive, and the
three outcomes (ok/notFound/badRequest) are pairwise distinguishable. -/
theorem claim9_lifecycle_not_found_bad_request :
    (∀ alertId user, Routes.acknowledgeRoute alertId user none =
      .notFound "Alert not found") ∧
    (∀ alertId user, Routes.resolveRoute alertId user none =
      .notFound "Alert not found") ∧
    (∀ alertId d user, Routes.snoozeRoute alertId d user none =
      .notFound "Alert not found") ∧
    (∀ alertId d user al, Routes.snoozeRoute alertId d user (some al) =
      .badRequest "Duration must be positive" ↔ d ≤ 0) ∧
    (∀ alertId user al, Routes.acknowledgeRoute alertId user (some al) =
      .ok ("Alert " ++ alertId ++ " acknowledged by " ++ user)) ∧
    (∀ alertId user al, Routes.resolveRoute alertId user (some al) =
      .ok ("Alert " ++ alertId ++ " resolved by " ++ user)) ∧
    (∀ d₁ d₂, Routes.RouteResult.notFound d₁ ≠ .badRequest d₂) ∧
    (∀ d m, Routes.RouteResult.notFound d ≠ .ok m) ∧
    (∀ d m, Routes.RouteResult.badRequest d ≠ .ok m) := by
  refine ⟨fun _ _ => rfl, fun _ _ => rfl, fun _ _ _ => rfl, ?_,
    fun _ _ _ => rfl, fun _ _ _ => rfl, fun _ _ => by simp,
    fun _ _ => by simp, fun _ _ => by simp⟩
  intro alertId d user al
  unfold Routes.snoozeRoute
  split_ifs with h <;> simp [h]

/-! ### Claim C10 -/

/-- C10 (implicit): after resolve_alert completes with MongoDB available, the
alert id is no longer in the in-memory notification-dedup cache (while the
status update was issued), so a later alert regenerated with the same id
passes the dedup check and is delivered again on every channel. -/
theorem claim10_resolve_clears_dedup_cache (st : AlertManager.ManagerState)
    (alertId user : String) (hm : st.mongoAvailable = true)
    (hnd : st.cache.Nodup) :
    alertId ∉ ((AlertManager.resolveAlert st alertId user).1).cache ∧
    (AlertManager.resolveAlert st alertId user).2 =
      ["update_alert_status:" ++ alertId ++ ":resolved:" ++ user] ∧
    (∀ channels enum,
      (AlertManager.notifyAlert channels enum
        { cache := ((AlertManager.resolveAlert st alertId user).1).cache
          sent := [] }
        { id := alertId, severity := "high" }).sent =
      channels.map (fun c => (c, alertId))) := by
  have hmem : alertId ∉ (st.cache.erase alertId) := by
    simp [List.Nodup.mem_erase_iff hnd]
  have hres : (AlertManager.resolveAlert st alertId user) =
      ({ st with cache := st.cache.erase alertId },
        ["update_alert_status:" ++ alertId ++ ":resolved:" ++ user]) := by
    unfold AlertManager.resolveAlert
    simp [hm]
  refine ⟨by rw [hres]; exact hmem, by rw [hres], ?_⟩
  intro channels enum
  rw [hres]
  have hsev : (pyLower "high" ∈ ["high", "critical"]) := by decide
  simp [AlertManager.notifyAlert, hmem, hsev]

/-- Witness for C10 on a concrete two-entry cache. -/
theorem claim10_witness :
    "alert-1" ∉ ((AlertManager.resolveAlert
      { cache := ["alert-1", "alert-2"], mongoAvailable := true }
      "alert-1" "ops").1).cache :=
  (claim10_resolve_clears_dedup_cache _ _ "ops" rfl (by decide)).1

/-! ### Claim C1 -/

/-- C1 (code bug): on the grouping-determinism scenario the manager groups
the three anomalies into the two expected groups, but `generate_alerts` does
not return two alerts — the `Alert(...)` call raises a pydantic
ValidationError because the generator omits the model's required `api_id`,
`api_name` and `environment` fields (it passes `apis`/`environments`, which
are not fields of the Alert model). -/
theorem claim1_generate_alerts_raises_validation_error :
    AlertManager.groupAnomalies groupingScenario =
      [("A:x", [anomA1, anomA2]), ("B:x", [anomB1])] ∧
    AlertGenerator.generateAlerts (AlertManager.groupAnomalies groupingScenario)
      = .error (.validationError ["api_id", "api_name", "environment"]) := by
  constructor
  · rfl
  · rfl

/-! ### Claim C6 -/

/-- C6 (amended): a notification is dispatched only for an alert whose
severity is high or critical and whose id is not yet in the dedup cache, and
the id is then added to the cache; presenting the same alert id twice within
one run delivers exactly one notification per channel PROVIDED the cache does
not overflow its 1000-entry bound in between — a trim between the two
presentations can evict the id and allow a duplicate (the documented
memory-bound tradeoff). -/
theorem claim6_notification_dedup (channels : List String)
    (enum : List String → List String) :
    (∀ st a, a.id ∈ st.cache →
      AlertManager.notifyAlert channels enum st a = st) ∧
    (∀ st a, ¬ (pyLower a.severity ∈ ["high", "critical"]) →
      AlertManager.notifyAlert channels enum st a = st) ∧
    (∀ st a, a.id ∉ st.cache → pyLower a.severity ∈ ["high", "critical"] →
      (AlertManager.notifyAlert channels enum st a).sent =
        st.sent ++ channels.map (fun c => (c, a.id)) ∧
      (st.cache.length < 1000 →
        (AlertManager.notifyAlert channels enum st a).cache =
          st.cache ++ [a.id])) ∧
    (∀ cache0 a, a.id ∉ cache0 → pyLower a.severity ∈ ["high", "critical"] →
      cache0.length < 1000 →
      (AlertManager.sendNotifications channels enum cache0 [a, a]).sent =
        channels.map (fun c => (c, a.id))) := by
  have hskip : ∀ st a, a.id ∈ st.cache →
      AlertManager.notifyAlert channels enum st a = st := by
    intro st a h
    unfold AlertManager.notifyAlert
    rw [if_pos h]
  have hlow : ∀ st a, ¬ (pyLower a.severity ∈ ["high", "critical"]) →
      AlertManager.notifyAlert channels enum st a = st := by
    intro st a h
    unfold AlertManager.notifyAlert
    by_cases h1 : a.id ∈ st.cache
    · rw [if_pos h1]
    · rw [if_neg h1, if_pos h]
  have hsend : ∀ st a, a.id ∉ st.cache →
      pyLower a.severity ∈ ["high", "critical"] →
      (AlertManager.notifyAlert channels enum st a).sent =
        st.sent ++ channels.map (fun c => (c, a.id)) ∧
      (st.cache.length < 1000 →
        (AlertManager.notifyAlert channels enum st a).cache =
          st.cache ++ [a.id]) := by
    intro st a h1 h2
    unfold AlertManager.notifyAlert
    rw [if_neg h1, if_neg (not_not_intro h2)]
    refine ⟨rfl, fun hlen => ?_⟩
    have : ¬ ((st.cache ++ [a.id]).length > 1000) := by
      simp only [List.length_append, List.length_cons, List.length_nil]
      omega
    simp only [if_neg this]
  refine ⟨hskip, hlow, hsend, ?_⟩
  intro cache0 a h1 h2 hlen
  unfold AlertManager.sendNotifications
  simp only [List.foldl_cons, List.foldl_nil]
  have h3 := hsend { cache := cache0, sent := [] } a h1 h2
  have hc : (AlertManager.notifyAlert channels enum
      { cache := cache0, sent := [] } a).cache = cache0 ++ [a.id] :=
    h3.2 hlen
  have hmem : a.id ∈ (AlertManager.notifyAlert channels enum
      { cache := cache0, sent := [] } a).cache := by
    rw [hc]; simp
  rw [hskip _ a hmem, h3.1]
  simp

/-- C6 counterexample: within one run whose cache has grown to the 1000 ids
b0..b999 (none of them "a"), presenting the high-severity alert "a" twice
delivers it twice on the single configured channel: the first presentation
pushes the cache to 1001 entries and the trim `set(list(cache)[-500:])` —
with the set enumerated in an order (here: reversed insertion order) the
Python set type is free to produce — evicts "a", so the second presentation
is not deduplicated.  `List.reverse` is a permutation, i.e. a legitimate set
enumeration. -/
theorem claim6_counterexample :
    (AlertManager.sendNotifications ["slack"] List.reverse cacheThousand
      [alertA, alertA]).sent = [("slack", "a"), ("slack", "a")] ∧
    "a" ∉ cacheThousand ∧
    cacheThousand.length = 1000 ∧
    (∀ c : List String, (List.reverse c).Perm c) :=
  ⟨by decide, by decide, by decide, fun c => List.reverse_perm c⟩

/-- Witness for C6 from an empty cache. -/
theorem claim6_witness :
    (AlertManager.sendNotifications ["slack"] List.reverse []
      [alertA, alertA]).sent = [("slack", "a")] :=
  (claim6_notification_dedup ["slack"] List.reverse).2.2.2 [] alertA
    (by decide) (by decide) (by decide)

/-! ### Claim C8 -/

/-- C8 (amended): whenever adding an alert id makes the dedup cache exceed
1000 entries it is immediately trimmed to exactly 500 entries, every survivor
having been in the pre-trim cache — but WHICH 500 survive depends on the
Python set's unspecified enumeration order, not on insertion recency; and a
notification step never leaves the cache above 1000 entries. -/
theorem claim8_cache_trim (channels : List String)
    (enum : List String → List String) (henum : ∀ c, (enum c).Perm c) :
    (∀ st a, st.cache.length ≤ 1000 →
      ((AlertManager.notifyAlert channels enum st a).cache).length ≤ 1000) ∧
    (∀ st a, st.cache.length = 1000 → a.id ∉ st.cache →
      pyLower a.severity ∈ ["high", "critical"] →
      ((AlertManager.notifyAlert channels enum st a).cache).length = 500 ∧
      (∀ x ∈ (AlertManager.notifyAlert channels enum st a).cache,
        x ∈ st.cache ++ [a.id])) := by
  constructor
  · intro st a hlen
    unfold AlertManager.notifyAlert AlertManager.trimCache
    dsimp only
    by_cases h1 : a.id ∈ st.cache
    · rw [if_pos h1]; exact hlen
    · rw [if_neg h1]
      by_cases h2 : ¬ (pyLower a.severity ∈ ["high", "critical"])
      · rw [if_pos h2]; exact hlen
      · rw [if_neg h2]
        by_cases h3 : (st.cache ++ [a.id]).length > 1000
        · rw [if_pos h3]
          dsimp only
          have hp := (henum (st.cache ++ [a.id])).length_eq
          simp only [List.length_drop]
          omega
        · rw [if_neg h3]
          dsimp only
          simp only [gt_iff_lt, not_lt, List.length_append, List.length_cons,
            List.length_nil] at h3 ⊢
          omega
  · intro st a hlen h1 h2
    unfold AlertManager.notifyAlert AlertManager.trimCache
    dsimp only
    rw [if_neg h1, if_neg (not_not_intro h2),
      if_pos (show (st.cache ++ [a.id]).length > 1000 by simp [hlen])]
    have hperm := henum (st.cache ++ [a.id])
    constructor
    · have hlen2 : (st.cache ++ [a.id]).length = 1001 := by simp [hlen]
      simp only [List.length_drop, hperm.length_eq, hlen2]
    · intro x hx
      exact hperm.mem_iff.mp (List.drop_subset _ _ hx)

/-- C8 counterexample: with the cache holding the ids b0..b999 in insertion
order, notifying the fresh high-severity alert "a" makes the cache reach 1001
entries; under the reversed enumeration of the set, the oldest id "b0"
survives the trim although it is not among the 500 most recently added ids
(which are `(cacheThousand ++ ["a"]).drop 501`), and the most recently added
id "a" itself is evicted. -/
theorem claim8_counterexample :
    "b0" ∈ (AlertManager.notifyAlert ["slack"] List.reverse
      { cache := cacheThousand, sent := [] } alertA).cache ∧
    "b0" ∉ (cacheThousand ++ ["a"]).drop 501 ∧
    "a" ∉ (AlertManager.notifyAlert ["slack"] List.reverse
      { cache := cacheThousand, sent := [] } alertA).cache ∧
    (cacheThousand ++ ["a"]).length = 1001 :=
  ⟨by decide, by decide, by decide, by decide⟩

/-- Witness for C8 at the concrete 1000-entry cache. -/
theorem claim8_witness :
    ((AlertManager.notifyAlert ["slack"] List.reverse
      { cache := cacheThousand, sent := [] } alertA).cache).length = 500 :=
  ((claim8_cache_trim ["slack"] List.reverse List.reverse_perm).2
    { cache := cacheThousand, sent := [] } alertA (by decide) (by decide)
    (by decide)).1

/-! ### Helper lemmas about sorting, means and single-key groupings -/

theorem sortByTs_perm (l : List Metric) : (sortByTs l).Perm l :=
  List.mergeSort_perm l _

theorem rtMean_const {l : List Metric} {c : ℚ} (hne : l ≠ [])
    (hall : ∀ m ∈ l, m.responseTime = c) : rtMean l = c := by
  have hmap : l.map Metric.responseTime = List.replicate l.length c := by
    apply List.eq_replicate_iff.mpr
    refine ⟨by simp, ?_⟩
    intro b hb
    rcases List.mem_map.mp hb with ⟨m, hm, rfl⟩
    exact hall m hm
  have h0 : l.length ≠ 0 := fun h => hne (List.length_eq_zero.mp h)
  have hlen : (l.length : ℚ) ≠ 0 := Nat.cast_ne_zero.mpr h0
  rw [rtMean, hmap, List.sum_replicate, nsmul_eq_mul]
  field_simp

theorem errorRate_of_no_errors {l : List Metric}
    (hall : ∀ m ∈ l, m.error = false) : errorRate l = 0 := by
  rw [errorRate]
  split_ifs with h
  · rfl
  · have : l.countP Metric.error = 0 := by
      rw [List.countP_eq_zero]
      intro m hm
      simp [hall m hm]
    rw [this]
    simp

theorem groupByEndpointSorted_const {ms : List Metric} {k : String}
    (hne : ms ≠ []) (hall : ∀ m ∈ ms, eKey m = k) :
    groupByEndpointSorted ms = [(k, sortByTs ms)] := by
  unfold groupByEndpointSorted groupByKey
  rw [keysInOrder_const hne hall]
  have : ms.filter (fun m => decide (eKey m = k)) = ms :=
    List.filter_eq_self.mpr (fun m hm => by simp [hall m hm])
  simp [this]

/-- Evaluation of `predict_issues` on the steady 30-point scenario under the
110ms forecast oracle. -/
theorem steady_predict_eval :
    ResponseTimeAnalyzer.predictIssues "A" .aws steadyScenario forecast110 =
      [steadyPrediction] := by
  have hne : steadyScenario ≠ [] := by decide
  have hall : ∀ m ∈ steadyScenario, eKey m = "GET:/e" := by decide
  have hrt : ∀ m ∈ steadyScenario, m.responseTime = 100 := by
    intro m hm
    rcases List.mem_map.mp hm with ⟨i, _, rfl⟩
    rfl
  have hperm := sortByTs_perm steadyScenario
  have hlen : (sortByTs steadyScenario).length = 30 := by
    rw [hperm.length_eq]; rfl
  unfold ResponseTimeAnalyzer.predictIssues
  rw [if_neg (by decide), groupByEndpointSorted_const hne hall]
  simp only [List.flatMap_cons, List.flatMap_nil, List.append_nil]
  rw [if_neg (by rw [hlen]; decide)]
  have hfc : ResponseTimeAnalyzer.forecastResponseTimes "GET:/e"
      (sortByTs steadyScenario) forecast110 =
      some (110, 4/5, 29 + 1800,
        ResponseTimeAnalyzer.forecastDescription 110 100) := rfl
  rw [hfc]
  have hdrop : rtMean ((sortByTs steadyScenario).drop
      ((sortByTs steadyScenario).length - 10)) = 100 := by
    apply rtMean_const
    · have : ((sortByTs steadyScenario).drop
          ((sortByTs steadyScenario).length - 10)).length = 10 := by
        rw [List.length_drop, hlen]
      intro hcontra
      rw [hcontra] at this
      simp at this
    · intro m hm
      exact hrt m (hperm.mem_iff.mp (List.drop_subset _ _ hm))
  rw [hdrop]
  dsimp only
  rw [if_pos (by norm_num : (110 : ℚ) > 100)]
  have hdesc : ResponseTimeAnalyzer.forecastDescription 110 100 =
      "Response time projected to remain stable in the next 30 minutes" := by
    unfold ResponseTimeAnalyzer.forecastDescription
    rw [if_neg (by norm_num), if_neg (by norm_num)]
  rw [hdesc]
  rfl

/-! ### Claim C7 -/

/-- C7 (amended): the trend field of every emitted response-time prediction
is a strict three-way comparison of the forecast against the current 10-point
average: "increasing" iff forecast > average, "decreasing" iff forecast <
average, "stable" iff they are exactly equal.  (The ±20 percent dead zone of
the spec exists only in the human-readable description text of
`_forecast_response_times`, not in the trend computation of
`predict_issues`.) -/
theorem claim7_trend_strict_comparison (apiId : String) (env : Env)
    (ms : List Metric) (oracle : ResponseTimeAnalyzer.ForecastOracle)
    (p : Prediction)
    (hp : p ∈ ResponseTimeAnalyzer.predictIssues apiId env ms oracle) :
    ∃ cv, p.currentValue = some cv ∧
      (p.trend = "increasing" ↔ cv < p.metricValue) ∧
      (p.trend = "decreasing" ↔ p.metricValue < cv) ∧
      (p.trend = "stable" ↔ p.metricValue = cv) := by
  unfold ResponseTimeAnalyzer.predictIssues at hp
  split at hp
  · simp at hp
  · rw [List.mem_flatMap] at hp
    obtain ⟨kg, _, hp⟩ := hp
    split at hp
    · simp at hp
    · rcases hfc : ResponseTimeAnalyzer.forecastResponseTimes kg.1 kg.2 oracle
        with _ | ⟨pv, conf, ts, descr⟩
      · rw [hfc] at hp
        simp at hp
      · rw [hfc] at hp
        simp only [List.mem_singleton] at hp
        subst hp
        refine ⟨rtMean (kg.2.drop (kg.2.length - 10)), rfl, ?_⟩
        set cv := rtMean (kg.2.drop (kg.2.length - 10)) with hcv
        simp only [createPrediction]
        rcases lt_trichotomy cv pv with h | h | h
        · rw [if_pos h]
          refine ⟨by simp [h], ?_, ?_⟩
          · simp only [show ("increasing" : String) ≠ "decreasing" by decide,
              false_iff]
            exact fun hc => absurd (hc.trans h) (lt_irrefl _)
          · simp only [show ("increasing" : String) ≠ "stable" by decide,
              false_iff]
            exact fun hc => absurd (hc ▸ h) (lt_irrefl _)
        · rw [if_neg (by rw [h]; exact lt_irrefl _),
            if_neg (by rw [h]; exact lt_irrefl _)]
          subst h
          refine ⟨?_, ?_, by simp⟩
          · simp only [show ("stable" : String) ≠ "increasing" by decide,
              false_iff]
            exact lt_irrefl _
          · simp only [show ("stable" : String) ≠ "decreasing" by decide,
              false_iff]
            exact lt_irrefl _
        · rw [if_neg (not_lt_of_lt h), if_pos h]
          refine ⟨?_, by simp [h], ?_⟩
          · simp only [show ("decreasing" : String) ≠ "increasing" by decide,
              false_iff]
            exact fun hc => absurd (h.trans hc) (lt_irrefl _)
          · simp only [show ("decreasing" : String) ≠ "stable" by decide,
              false_iff]
            exact fun hc => absurd (hc ▸ h) (lt_irrefl _)

/-- C7 counterexample: a 110ms forecast against a 100ms current average lies
inside the ±20 percent dead zone, yet the emitted prediction's trend is
"increasing", not "stable". -/
theorem claim7_counterexample :
    (ResponseTimeAnalyzer.predictIssues "A" .aws steadyScenario forecast110).map
      (fun p => (p.trend, p.metricValue, p.currentValue)) =
      [("increasing", (110 : ℚ), some (100 : ℚ))] ∧
    (110 : ℚ) ≤ 100 * (6/5) ∧ (100 : ℚ) * (4/5) ≤ 110 := by
  refine ⟨?_, by norm_num, by norm_num⟩
  rw [steady_predict_eval]
  rfl

/-- Witness for C7 on the steady scenario's emitted prediction. -/
theorem claim7_witness :
    ∃ cv, steadyPrediction.currentValue = some cv ∧
      (steadyPrediction.trend = "increasing" ↔ cv < steadyPrediction.metricValue) ∧
      (steadyPrediction.trend = "decreasing" ↔ steadyPrediction.metricValue < cv) ∧
      (steadyPrediction.trend = "stable" ↔ steadyPrediction.metricValue = cv) :=
  claim7_trend_strict_comparison "A" .aws steadyScenario forecast110
    steadyPrediction (by rw [steady_predict_eval]; exact List.mem_singleton.mpr rfl)

/-! ### Claim C4 -/

/-- Counting in a filterMap over distinct keys, when the predicate recognises
exactly the key-k output. -/
theorem countP_filterMap_single {F : String → Option Anomaly} {k : String}
    (hF : ∀ k1 a, F k1 = some a → (a.ctxEndpoint = some k ↔ k1 = k)) :
    ∀ ks : List String, ks.Nodup →
      ((ks.filterMap F).countP (fun a => a.ctxEndpoint == some k)) =
        if k ∈ ks then (F k).elim 0 (fun _ => 1) else 0 := by
  intro ks
  induction ks with
  | nil => intro _; simp
  | cons k1 ks ih =>
    intro hnd
    rw [List.filterMap_cons]
    rcases hFk1 : F k1 with _ | b
    · rw [ih hnd.of_cons]
      by_cases hk : k = k1
      · subst hk
        have hnotin : k ∉ ks := (List.nodup_cons.mp hnd).1
        simp [hnotin, hFk1]
      · simp [List.mem_cons, hk]
    · rw [List.countP_cons, ih hnd.of_cons]
      have hiff := hF k1 b hFk1
      by_cases hk : k = k1
      · subst hk
        have hnotin : k ∉ ks := (List.nodup_cons.mp hnd).1
        have hb : (b.ctxEndpoint == some k) = true := by
          rw [beq_iff_eq]
          exact hiff.mpr rfl
        simp [hnotin, hFk1, hb]
      · have hb : (b.ctxEndpoint == some k) = false := by
          simp only [beq_eq_false_iff_ne, ne_eq]
          exact fun h => hk (hiff.mp h).symm
        simp [List.mem_cons, hk, hb]

/-- C4: for every (method, endpoint) group with at least 20 metrics, the
error-rate analyzer emits exactly one "high_error_rate" anomaly for that
group iff the group error rate exceeds 5 percent, and any such anomaly has
severity min(1, rate*5), expected value 0.01, threshold 0.05 and the rate as
its metric value. -/
theorem claim4_error_rate_detection (apiId k : String) (metrics : List Metric)
    (hk : 20 ≤ (metrics.filter (fun m => eKey m = k)).length) :
    ((ErrorRateAnalyzer.detectAnomalies apiId metrics).countP
      (fun a => a.ctxEndpoint == some k) =
      if errorRate (metrics.filter (fun m => eKey m = k)) > 1/20 then 1
      else 0) ∧
    (∀ a ∈ ErrorRateAnalyzer.detectAnomalies apiId metrics,
      a.ctxEndpoint = some k →
        a.type = "high_error_rate" ∧
        a.severity =
          min 1 (errorRate (metrics.filter (fun m => eKey m = k)) * 5) ∧
        a.expectedValue = some (1/100) ∧
        a.threshold = some (1/20) ∧
        a.metricValue = errorRate (metrics.filter (fun m => eKey m = k))) := by
  have hlenms : ¬ (metrics.length < ErrorRateAnalyzer.minDataPoints) := by
    have := le_trans hk (List.length_filter_le _ _)
    rw [ErrorRateAnalyzer.minDataPoints]
    omega
  have hdet : ErrorRateAnalyzer.detectAnomalies apiId metrics =
      (keysInOrder eKey metrics).filterMap (fun k1 =>
        if (metrics.filter (fun m => eKey m = k1)).length <
            ErrorRateAnalyzer.minDataPoints then none
        else if errorRate (metrics.filter (fun m => eKey m = k1)) > 1/20 then
          some (ErrorRateAnalyzer.groupAnomaly apiId k1
            (metrics.filter (fun m => eKey m = k1)))
        else none) := by
    unfold ErrorRateAnalyzer.detectAnomalies groupByKey
    rw [if_neg hlenms, List.filterMap_map]
    rfl
  have hctx : ∀ k1 g, (ErrorRateAnalyzer.groupAnomaly apiId k1 g).ctxEndpoint
      = some k1 := fun _ _ => rfl
  have hF : ∀ k1 a,
      (if (metrics.filter (fun m => eKey m = k1)).length <
          ErrorRateAnalyzer.minDataPoints then none
        else if errorRate (metrics.filter (fun m => eKey m = k1)) > 1/20 then
          some (ErrorRateAnalyzer.groupAnomaly apiId k1
            (metrics.filter (fun m => eKey m = k1)))
        else none) = some a →
      (a.ctxEndpoint = some k ↔ k1 = k) := by
    intro k1 a ha
    split_ifs at ha with h1 h2
    rw [← Option.some_inj.mp ha, hctx]
    simp
  have hgrp : ∃ m ∈ metrics, eKey m = k := by
    have hne : metrics.filter (fun m => eKey m = k) ≠ [] := by
      intro h
      rw [h] at hk
      simp at hk
    rcases List.exists_mem_of_ne_nil _ hne with ⟨m, hm⟩
    exact ⟨m, (List.mem_filter.mp hm).1, by
      have := (List.mem_filter.mp hm).2
      simpa using this⟩
  have hmemk : k ∈ keysInOrder eKey metrics := mem_keysInOrder.mpr hgrp
  constructor
  · rw [hdet, countP_filterMap_single hF _ (keysInOrder_nodup metrics),
      if_pos hmemk, if_neg (by rw [ErrorRateAnalyzer.minDataPoints]; omega)]
    split_ifs with hrate
    · rfl
    · rfl
  · intro a ha hactx
    rw [hdet] at ha
    rcases List.mem_filterMap.mp ha with ⟨k1, _, hFk1⟩
    split_ifs at hFk1 with h1 h2
    have heq := Option.some_inj.mp hFk1
    have hk1 : k1 = k := by
      have hc := hctx k1 (metrics.filter (fun m => eKey m = k1))
      rw [heq] at hc
      rw [hc] at hactx
      exact Option.some_inj.mp hactx
    subst hk1
    rw [← heq]
    exact ⟨rfl, rfl, rfl, rfl, rfl⟩

/-- Witness for C4: 100 metrics on one endpoint with 6 failures give exactly
one high_error_rate anomaly, of severity 0.3. -/
theorem claim4_witness :
    (ErrorRateAnalyzer.detectAnomalies "A" errorScenario).countP
      (fun a => a.ctxEndpoint == some "GET:/orders") = 1 ∧
    ∀ a ∈ ErrorRateAnalyzer.detectAnomalies "A" errorScenario,
      a.ctxEndpoint = some "GET:/orders" → a.severity = 3/10 := by
  have hfe : errorScenario.filter (fun m => eKey m = "GET:/orders") =
      errorScenario := List.filter_eq_self.mpr (by decide)
  have hk : 20 ≤ (errorScenario.filter
      (fun m => eKey m = "GET:/orders")).length := by
    rw [hfe]; decide
  have hrate : errorRate (errorScenario.filter
      (fun m => eKey m = "GET:/orders")) = 3/50 := by
    rw [hfe, errorRate, if_neg (by decide),
      show errorScenario.countP Metric.error = 6 from by decide,
      show errorScenario.length = 100 from by decide]
    norm_num
  obtain ⟨h1, h2⟩ := claim4_error_rate_detection "A" "GET:/orders"
    errorScenario hk
  constructor
  · rw [h1, if_pos (by rw [hrate]; norm_num)]
  · intro a ha hactx
    have hsev := (h2 a ha hactx).2.1
    rw [hsev, hrate]
    rw [show (3:ℚ)/50 * 5 = 3/10 by norm_num]
    rw [min_eq_right (by norm_num)]

/-! ### Claim C2: bound lemmas for each analyzer output path -/

theorem errorRate_nonneg (l : List Metric) : 0 ≤ errorRate l := by
  rw [errorRate]
  split_ifs
  · exact le_refl 0
  · exact div_nonneg (Nat.cast_nonneg _) (Nat.cast_nonneg _)

theorem er_detect_sev_bounds (apiId : String) (ms : List Metric) :
    ∀ a ∈ ErrorRateAnalyzer.detectAnomalies apiId ms,
      0 ≤ a.severity ∧ a.severity ≤ 1 := by
  intro a ha
  unfold ErrorRateAnalyzer.detectAnomalies at ha
  split at ha
  · simp at ha
  · rcases List.mem_filterMap.mp ha with ⟨kg, _, hf⟩
    split_ifs at hf with h1 h2
    rw [← Option.some_inj.mp hf]
    refine ⟨le_min (by norm_num) ?_, min_le_left _ _⟩
    have := errorRate_nonneg kg.2
    show (0:ℚ) ≤ errorRate kg.2 * 5
    linarith

theorem checkRt_sev_bounds (apiId ep : String) (g1 g2 : List Metric)
    (e1 e2 : Env) :
    ∀ a ∈ CrossEnvironmentAnalyzer.checkRtDiscrepancy apiId ep g1 g2 e1 e2,
      0 ≤ a.severity ∧ a.severity ≤ 1 := by
  intro a ha
  unfold CrossEnvironmentAnalyzer.checkRtDiscrepancy at ha
  dsimp only at ha
  split at ha
  next h =>
    rcases List.mem_singleton.mp ha with rfl
    exact ⟨le_min (by norm_num) (by linarith), min_le_left _ _⟩
  next h => simp at ha

theorem checkEr_sev_bounds (apiId ep : String) (g1 g2 : List Metric)
    (e1 e2 : Env) :
    ∀ a ∈ CrossEnvironmentAnalyzer.checkErDiscrepancy apiId ep g1 g2 e1 e2,
      0 ≤ a.severity ∧ a.severity ≤ 1 := by
  intro a ha
  unfold CrossEnvironmentAnalyzer.checkErDiscrepancy at ha
  dsimp only at ha
  split at ha
  next h =>
    rcases List.mem_singleton.mp ha with rfl
    exact ⟨le_min (by norm_num) (by linarith [h.1]), min_le_left _ _⟩
  next h =>
    split at ha
    next h2 =>
      rcases List.mem_singleton.mp ha with rfl
      exact ⟨le_min (by norm_num) (by linarith [h2.1]), min_le_left _ _⟩
    next h2 => simp at ha

theorem propagation_sev_bounds (now : ℤ)
    (history : List (String × List Metric)) (apiId ep : String)
    (ms : List Metric) (environments : List Env) :
    ∀ a ∈ CrossEnvironmentAnalyzer.detectPropagationPatterns now history
      apiId ep ms environments, 0 ≤ a.severity ∧ a.severity ≤ 1 := by
  intro a ha
  unfold CrossEnvironmentAnalyzer.detectPropagationPatterns at ha
  split at ha
  · simp at ha
  · dsimp only at ha
    split at ha
    · simp at ha
    · rcases List.mem_flatMap.mp ha with ⟨p, _, hp⟩
      split at hp
      next h1 =>
        split at hp
        next h2 => simp at hp
        next h2 =>
          rcases List.mem_singleton.mp hp with rfl
          exact ⟨by norm_num [createAnomaly], by norm_num [createAnomaly]⟩
      next h1 => simp at hp

theorem envdisc_sev_bounds (apiId ep : String) (ms : List Metric) :
    ∀ a ∈ CrossEnvironmentAnalyzer.detectEnvironmentDiscrepancies apiId ep ms,
      0 ≤ a.severity ∧ a.severity ≤ 1 := by
  intro a ha
  unfold CrossEnvironmentAnalyzer.detectEnvironmentDiscrepancies at ha
  dsimp only at ha
  split at ha
  · simp at ha
  · rcases List.mem_flatMap.mp ha with ⟨p, _, hp⟩
    rcases List.mem_append.mp hp with hp | hp
    · exact checkRt_sev_bounds _ _ _ _ _ _ a hp
    · exact checkEr_sev_bounds _ _ _ _ _ _ a hp

theorem ce_detect_sev_bounds (now : ℤ)
    (history : List (String × List Metric)) (ms : List Metric) :
    ∀ a ∈ CrossEnvironmentAnalyzer.detectAnomalies now history ms,
      0 ≤ a.severity ∧ a.severity ≤ 1 := by
  intro a ha
  unfold CrossEnvironmentAnalyzer.detectAnomalies at ha
  split at ha
  · simp at ha
  · rcases List.mem_flatMap.mp ha with ⟨akg, _, ha⟩
    rcases List.mem_flatMap.mp ha with ⟨ekg, _, ha⟩
    dsimp only at ha
    split at ha
    · simp at ha
    · rcases List.mem_append.mp ha with ha | ha
      · exact envdisc_sev_bounds _ _ _ a ha
      · exact propagation_sev_bounds _ _ _ _ _ _ a ha

theorem spike_sev_le_one (apiId ep : String) (ms : List Metric)
    (flag : ℕ → Bool) (score : ℕ → ℚ) :
    ∀ a ∈ ResponseTimeAnalyzer.detectSpikes apiId ep ms flag score,
      a.severity ≤ 1 := by
  intro a ha
  unfold ResponseTimeAnalyzer.detectSpikes at ha
  rcases List.mem_filterMap.mp ha with ⟨im, _, hf⟩
  split_ifs at hf with h
  rw [← Option.some_inj.mp hf]
  exact min_le_left _ _

theorem pattern_sev_le_one (apiId ep : String)
    (histOpt : Option (List Metric)) (ms : List Metric) (flag : ℕ → Bool)
    (score : ℕ → ℚ) :
    ∀ a ∈ ResponseTimeAnalyzer.detectPatternChanges apiId ep histOpt ms flag
      score, a.severity ≤ 1 := by
  intro a ha
  unfold ResponseTimeAnalyzer.detectPatternChanges at ha
  split at ha
  · simp at ha
  · split at ha
    · simp at ha
    · rcases List.mem_map.mp ha with ⟨i, _, rfl⟩
      exact min_le_left _ _

theorem rt_detect_sev_le_one (apiId : String)
    (history : String → Option (List Metric)) (metrics : List Metric)
    (sf : String → ℕ → Bool) (ss : String → ℕ → ℚ)
    (pf : String → ℕ → Bool) (ps : String → ℕ → ℚ) :
    ∀ a ∈ ResponseTimeAnalyzer.detectAnomalies apiId history metrics sf ss
      pf ps, a.severity ≤ 1 := by
  intro a ha
  unfold ResponseTimeAnalyzer.detectAnomalies at ha
  split at ha
  · simp at ha
  · rcases List.mem_flatMap.mp ha with ⟨kg, _, ha⟩
    split at ha
    · simp at ha
    · rcases List.mem_append.mp ha with ha | ha
      · exact spike_sev_le_one _ _ _ _ _ a ha
      · exact pattern_sev_le_one _ _ _ _ _ _ a ha

theorem rt_predict_conf_bounds (apiId : String) (env : Env)
    (ms : List Metric) (oracle : ResponseTimeAnalyzer.ForecastOracle) :
    ∀ p ∈ ResponseTimeAnalyzer.predictIssues apiId env ms oracle,
      p.confidence = 4/5 := by
  intro p hp
  unfold ResponseTimeAnalyzer.predictIssues at hp
  split at hp
  · simp at hp
  · rcases List.mem_flatMap.mp hp with ⟨kg, _, hp⟩
    split at hp
    · simp at hp
    · rcases hfc : ResponseTimeAnalyzer.forecastResponseTimes kg.1 kg.2 oracle
        with _ | ⟨pv, conf, ts, descr⟩
      · rw [hfc] at hp
        simp at hp
      · rw [hfc] at hp
        simp only [List.mem_singleton] at hp
        subst hp
        unfold ResponseTimeAnalyzer.forecastResponseTimes at hfc
        rcases horc : oracle kg.1 kg.2 with _ | ⟨fv, lt, avg⟩
        · rw [horc] at hfc
          simp at hfc
        · rw [horc] at hfc
          simp only [Option.some_inj, Prod.mk.injEq] at hfc
          exact hfc.2.1.symm

theorem er_predict_conf_bounds (now : ℤ) (apiId : String)
    (ms : List Metric) :
    ∀ p ∈ ErrorRateAnalyzer.predictIssues now apiId ms,
      0 ≤ p.confidence ∧ p.confidence ≤ 1 := by
  intro p hp
  unfold ErrorRateAnalyzer.predictIssues at hp
  split at hp
  · simp at hp
  · rcases List.mem_filterMap.mp hp with ⟨kg, _, hf⟩
    dsimp only at hf
    split_ifs at hf with h1 h2 h3
    rw [← Option.some_inj.mp hf]
    constructor
    · apply le_min (by norm_num)
      have h0 := errorRate_nonneg
        ((kg.2.mergeSort (fun a b => a.timestamp ≤ b.timestamp)).filter
          (fun m => now - 3600 ≤ m.timestamp))
      have hdiv : (0:ℚ) ≤ errorRate
          ((kg.2.mergeSort (fun a b => a.timestamp ≤ b.timestamp)).filter
            (fun m => now - 3600 ≤ m.timestamp)) / (1/10) :=
        div_nonneg h0 (by norm_num)
      show (0:ℚ) ≤ 1/2 + _
      linarith
    · exact le_trans (min_le_left _ _) (by norm_num)

theorem ce_predict_env_conf_bounds (now : ℤ) (apiId ep : String)
    (ms : List Metric) :
    ∀ p ∈ CrossEnvironmentAnalyzer.predictEnvironmentIssues now apiId ep ms,
      0 ≤ p.confidence ∧ p.confidence ≤ 1 := by
  intro p hp
  unfold CrossEnvironmentAnalyzer.predictEnvironmentIssues at hp
  dsimp only at hp
  split at hp
  · simp at hp
  · rcases List.mem_flatMap.mp hp with ⟨pe, _, hp⟩
    rcases List.mem_flatMap.mp hp with ⟨tkg, _, hp⟩
    split at hp
    · simp at hp
    · split at hp
      · simp at hp
      · rcases List.mem_flatMap.mp hp with ⟨it, _, hp⟩
        have hcast : (0:ℚ) ≤
            ((CrossEnvironmentAnalyzer.envOrder tkg.1 -
              CrossEnvironmentAnalyzer.envOrder pe.1 : ℕ) : ℚ) * (1/10) := by
          positivity
        split_ifs at hp with hit1 hit2
        · rcases List.mem_singleton.mp hp with rfl
          exact ⟨le_trans (by norm_num) (le_max_left _ _),
            max_le (by norm_num) (by linarith)⟩
        · rcases List.mem_singleton.mp hp with rfl
          exact ⟨le_trans (by norm_num) (le_max_left _ _),
            max_le (by norm_num) (by linarith)⟩
        · simp at hp

theorem ce_predict_conf_bounds (now : ℤ) (ms : List Metric) :
    ∀ p ∈ CrossEnvironmentAnalyzer.predictIssues now ms,
      0 ≤ p.confidence ∧ p.confidence ≤ 1 := by
  intro p hp
  unfold CrossEnvironmentAnalyzer.predictIssues at hp
  split at hp
  · simp at hp
  · rcases List.mem_flatMap.mp hp with ⟨akg, _, hp⟩
    rcases List.mem_flatMap.mp hp with ⟨ekg, _, hp⟩
    split at hp
    · simp at hp
    · exact ce_predict_env_conf_bounds _ _ _ _ p hp

/-- C2 (amended): every anomaly emitted by the error-rate analyzer and the
cross-environment analyzer has severity in [0,1]; every prediction of the
response-time, error-rate and cross-environment analyzers has confidence in
[0,1]; the response-time analyzer's spike and pattern-change severities are
clamped above (≤ 1) but have NO lower clamp — `min(1.0, ...)` without a
`max(0.0, ...)` — so they drop below 0 exactly when the flagged observation
falls below its local expected value (resp. when the outlier score is
negative). -/
theorem claim2_severity_confidence_bounds :
    (∀ apiId ms, ∀ a ∈ ErrorRateAnalyzer.detectAnomalies apiId ms,
      0 ≤ a.severity ∧ a.severity ≤ 1) ∧
    (∀ now history ms,
      ∀ a ∈ CrossEnvironmentAnalyzer.detectAnomalies now history ms,
        0 ≤ a.severity ∧ a.severity ≤ 1) ∧
    (∀ apiId history ms sf ss pf ps,
      ∀ a ∈ ResponseTimeAnalyzer.detectAnomalies apiId history ms sf ss pf ps,
        a.severity ≤ 1) ∧
    (∀ apiId env ms oracle,
      ∀ p ∈ ResponseTimeAnalyzer.predictIssues apiId env ms oracle,
        0 ≤ p.confidence ∧ p.confidence ≤ 1) ∧
    (∀ now apiId ms, ∀ p ∈ ErrorRateAnalyzer.predictIssues now apiId ms,
      0 ≤ p.confidence ∧ p.confidence ≤ 1) ∧
    (∀ now ms, ∀ p ∈ CrossEnvironmentAnalyzer.predictIssues now ms,
      0 ≤ p.confidence ∧ p.confidence ≤ 1) := by
  refine ⟨er_detect_sev_bounds, ce_detect_sev_bounds, rt_detect_sev_le_one,
    ?_, er_predict_conf_bounds, ce_predict_conf_bounds⟩
  intro apiId env ms oracle p hp
  rw [rt_predict_conf_bounds apiId env ms oracle p hp]
  norm_num

/-- C2 counterexample: the spike severity is not clamped below.  On a series
at 100ms with a dip to 40ms at index 5, an outlier decision flagging the dip
(a low point is a nearest-neighbour outlier too) yields a
"response_time_spike" anomaly of severity min(1,(40-100)/100) = -3/5 < 0. -/
theorem claim2_counterexample :
    (ResponseTimeAnalyzer.detectSpikes "A" "GET:/e" spikeScenario spikeFlagAt5
        spikeScoreOne).map Anomaly.severity = [-(3/5)] ∧
    (-(3/5) : ℚ) < 0 := by
  refine ⟨?_, by norm_num⟩
  have heval : ResponseTimeAnalyzer.detectSpikes "A" "GET:/e" spikeScenario
      spikeFlagAt5 spikeScoreOne =
      [createAnomaly "A" "response_time_spike"
        (min 1 (((spikeMetric 5).responseTime - rtMean spikeWindow) /
          rtMean spikeWindow))
        ("Response time spike detected for " ++ "GET:/e")
        (spikeMetric 5).responseTime (some (rtMean spikeWindow))
        (some (rtMean spikeWindow * (3/2))) Env.aws (some "GET:/e")
        (some "GET")] := rfl
  rw [heval]
  have htake : spikeScenario.take 15 = (List.range 15).map spikeMetric := by
    rw [spikeScenario, ← List.map_take, List.take_range]
    norm_num
  have hmean : rtMean spikeWindow = 100 := by
    apply rtMean_const
    · have hmem : spikeMetric 0 ∈ spikeWindow := by
        rw [spikeWindow, htake, List.drop_zero]
        refine List.mem_filter.mpr ⟨List.mem_map.mpr ⟨0, by simp, rfl⟩, ?_⟩
        simp only [decide_eq_true_eq]
        intro h
        have := congrArg Metric.timestamp h
        simp [spikeMetric] at this
      exact List.ne_nil_of_mem hmem
    · intro m hm
      rw [spikeWindow, htake, List.drop_zero] at hm
      rcases List.mem_filter.mp hm with ⟨h1, h2⟩
      rcases List.mem_map.mp h1 with ⟨i, hi, rfl⟩
      simp only [decide_eq_true_eq] at h2
      have hne5 : i ≠ 5 := fun h => h2 (by rw [h])
      simp [spikeMetric, hne5]
  rw [hmean]
  simp only [List.map_cons, List.map_nil, createAnomaly]
  rw [show (spikeMetric 5).responseTime = 40 from rfl,
    show ((40:ℚ) - 100) / 100 = -(3/5) by norm_num,
    min_eq_right (by norm_num : (-(3/5) : ℚ) ≤ 1)]

/-- Witness for C2: the confidence of the concrete steady-scenario
prediction is within [0,1]. -/
theorem claim2_witness :
    0 ≤ steadyPrediction.confidence ∧ steadyPrediction.confidence ≤ 1 :=
  claim2_severity_confidence_bounds.2.2.2.1 "A" .aws steadyScenario
    forecast110 steadyPrediction
    (by rw [steady_predict_eval]; exact List.mem_singleton.mpr rfl)

/-! ### Claim C5 -/

theorem rtMean_perm {l1 l2 : List Metric} (h : l1.Perm l2) :
    rtMean l1 = rtMean l2 := by
  rw [rtMean, rtMean, (h.map Metric.responseTime).sum_eq, h.length_eq]

/-- A duplicate-free list whose members are exactly two distinct values is
one of the two orderings. -/
theorem pair_cases {α : Type} {x y : α} (l : List α) (hnd : l.Nodup)
    (hx : x ∈ l) (hy : y ∈ l) (hsub : ∀ k ∈ l, k = x ∨ k = y)
    (hne : x ≠ y) : l = [x, y] ∨ l = [y, x] := by
  rcases l with _ | ⟨a, _ | ⟨b, rest⟩⟩
  · exact absurd hx (List.not_mem_nil _)
  · rcases List.mem_singleton.mp hx with rfl
    exact absurd (List.mem_singleton.mp hy).symm hne
  · have hrest : rest = [] := by
      rcases rest with _ | ⟨c, cs⟩
      · rfl
      · have ha := hsub a (by simp)
        have hb := hsub b (by simp)
        have hc := hsub c (by simp)
        have hab : a ≠ b := by
          intro h
          exact (List.nodup_cons.mp hnd).1 (h ▸ List.mem_cons_self ..)
        have hcab : c = a ∨ c = b := by
          rcases ha with rfl | rfl <;> rcases hb with rfl | rfl <;>
            rcases hc with rfl | rfl <;> tauto
        rcases hcab with rfl | rfl
        · exact absurd (by simp) (List.nodup_cons.mp hnd).1
        · have hnd2 := (List.nodup_cons.mp hnd).2
          exact absurd (by simp) (List.nodup_cons.mp hnd2).1
    subst hrest
    have ha := hsub a (by simp)
    have hb := hsub b (by simp)
    have hab : a ≠ b := by
      intro h
      exact (List.nodup_cons.mp hnd).1 (h ▸ List.mem_cons_self ..)
    rcases ha with rfl | rfl
    · rcases hb with rfl | rfl
      · exact absurd rfl hab
      · exact Or.inl rfl
    · rcases hb with rfl | rfl
      · exact Or.inr rfl
      · exact absurd rfl hab

/-- C5: for one (api, endpoint) observed in exactly two environments X and Y
with at least 20 samples each and no errors, X at mean latency 100ms and Y at
160ms, a fresh cross-environment analyzer raises exactly one discrepancy
anomaly, attributed to the slower environment Y, with expected value 100,
threshold 130 (the faster mean times 1.3) and severity
min(1, relative difference). -/
theorem claim5_cross_env_discrepancy (now : ℤ) (apiId M E : String)
    (envX envY : Env) (ms : List Metric) (hne : envX ≠ envY)
    (hall : ∀ m ∈ ms, m.apiId = apiId ∧ m.method = M ∧ m.endpoint = E ∧
      m.error = false ∧ (m.environment = envX ∨ m.environment = envY))
    (hX : 20 ≤ (ms.filter (fun m => m.environment = envX)).length)
    (hY : 20 ≤ (ms.filter (fun m => m.environment = envY)).length)
    (hmX : rtMean (ms.filter (fun m => m.environment = envX)) = 100)
    (hmY : rtMean (ms.filter (fun m => m.environment = envY)) = 160) :
    ∃ a, CrossEnvironmentAnalyzer.detectAnomalies now [] ms = [a] ∧
      a.type = "cross_environment_response_time" ∧
      a.environment = envY ∧
      a.expectedValue = some 100 ∧
      a.threshold = some 130 ∧
      a.metricValue = 160 ∧
      a.severity = min 1 ((160 - 100) / ((100 + 160) / 2)) := by
  have hmsne : ms ≠ [] := by
    intro h
    rw [h] at hX
    simp at hX
  have hlen20 : ¬ (ms.length < CrossEnvironmentAnalyzer.minDataPoints) := by
    have h1 := le_trans hX (List.length_filter_le _ _)
    rw [CrossEnvironmentAnalyzer.minDataPoints]
    omega
  have hapi : CrossEnvironmentAnalyzer.groupByApi ms = [(apiId, ms)] := by
    unfold CrossEnvironmentAnalyzer.groupByApi groupByKey
    rw [keysInOrder_const hmsne (fun m hm => (hall m hm).1)]
    have hfs : ms.filter (fun m => decide (m.apiId = apiId)) = ms :=
      List.filter_eq_self.mpr (fun m hm => by simp [(hall m hm).1])
    simp [hfs]
  have hek : ∀ m ∈ ms, eKey m = M ++ ":" ++ E := fun m hm => by
    rw [eKey, (hall m hm).2.1, (hall m hm).2.2.1]
  have hep := groupByEndpointSorted_const hmsne hek
  have hperm : (sortByTs ms).Perm ms := sortByTs_perm ms
  have hXmem : envX ∈ keysInOrder Metric.environment (sortByTs ms) := by
    apply mem_keysInOrder.mpr
    have hne1 : ms.filter (fun m => m.environment = envX) ≠ [] := by
      intro h
      rw [h] at hX
      simp at hX
    rcases List.exists_mem_of_ne_nil _ hne1 with ⟨m, hm⟩
    rcases List.mem_filter.mp hm with ⟨hm1, hm2⟩
    exact ⟨m, hperm.mem_iff.mpr hm1, by simpa using hm2⟩
  have hYmem : envY ∈ keysInOrder Metric.environment (sortByTs ms) := by
    apply mem_keysInOrder.mpr
    have hne1 : ms.filter (fun m => m.environment = envY) ≠ [] := by
      intro h
      rw [h] at hY
      simp at hY
    rcases List.exists_mem_of_ne_nil _ hne1 with ⟨m, hm⟩
    rcases List.mem_filter.mp hm with ⟨hm1, hm2⟩
    exact ⟨m, hperm.mem_iff.mpr hm1, by simpa using hm2⟩
  have hsub : ∀ k ∈ keysInOrder Metric.environment (sortByTs ms),
      k = envX ∨ k = envY := by
    intro k hk
    rcases mem_keysInOrder.mp hk with ⟨m, hm, rfl⟩
    exact (hall m (hperm.mem_iff.mp hm)).2.2.2.2
  have hflen : ∀ e : Env,
      (sortByTs ((sortByTs ms).filter (fun m => m.environment = e))).length =
        (ms.filter (fun m => m.environment = e)).length := by
    intro e
    rw [(sortByTs_perm _).length_eq, (hperm.filter _).length_eq]
  have hfmean : ∀ e : Env,
      rtMean (sortByTs ((sortByTs ms).filter (fun m => m.environment = e))) =
        rtMean (ms.filter (fun m => m.environment = e)) := by
    intro e
    exact rtMean_perm ((sortByTs_perm _).trans (hperm.filter _))
  have hferr : ∀ e : Env,
      errorRate (sortByTs ((sortByTs ms).filter
        (fun m => m.environment = e))) = 0 := by
    intro e
    apply errorRate_of_no_errors
    intro m hm
    have hm2 := (sortByTs_perm _).mem_iff.mp hm
    have hm3 := (List.mem_filter.mp hm2).1
    exact (hall m (hperm.mem_iff.mp hm3)).2.2.2.1
  have hpipe : ∀ e1 e2 : Env,
      keysInOrder Metric.environment (sortByTs ms) = [e1, e2] →
      CrossEnvironmentAnalyzer.detectAnomalies now [] ms =
        CrossEnvironmentAnalyzer.checkRtDiscrepancy apiId (M ++ ":" ++ E)
          (sortByTs ((sortByTs ms).filter (fun m => m.environment = e1)))
          (sortByTs ((sortByTs ms).filter (fun m => m.environment = e2)))
          e1 e2 ++
        CrossEnvironmentAnalyzer.checkErDiscrepancy apiId (M ++ ":" ++ E)
          (sortByTs ((sortByTs ms).filter (fun m => m.environment = e1)))
          (sortByTs ((sortByTs ms).filter (fun m => m.environment = e2)))
          e1 e2 := by
    intro e1 e2 henv
    unfold CrossEnvironmentAnalyzer.detectAnomalies
    rw [if_neg hlen20, hapi]
    simp only [List.flatMap_cons, List.flatMap_nil, List.append_nil]
    rw [hep]
    simp only [List.flatMap_cons, List.flatMap_nil, List.append_nil]
    rw [if_neg (by
      simp only [CrossEnvironmentAnalyzer.envsOf]
      rw [henv]
      norm_num)]
    have hprop : CrossEnvironmentAnalyzer.detectPropagationPatterns now []
        apiId (M ++ ":" ++ E) (sortByTs ms)
        (CrossEnvironmentAnalyzer.envsOf (sortByTs ms)) = [] := rfl
    rw [hprop, List.append_nil]
    unfold CrossEnvironmentAnalyzer.detectEnvironmentDiscrepancies
    dsimp only
    have hbyEnv : CrossEnvironmentAnalyzer.groupByEnvironment (sortByTs ms) =
        [(e1, sortByTs ((sortByTs ms).filter (fun m => m.environment = e1))),
         (e2, sortByTs ((sortByTs ms).filter (fun m => m.environment = e2)))]
        := by
      unfold CrossEnvironmentAnalyzer.groupByEnvironment groupByKey
      rw [henv]
      rfl
    rw [hbyEnv]
    have hv1 : CrossEnvironmentAnalyzer.minDataPoints ≤
        (sortByTs ((sortByTs ms).filter
          (fun m => m.environment = e1))).length := by
      rw [CrossEnvironmentAnalyzer.minDataPoints, hflen]
      rcases hsub e1 (by rw [henv]; simp) with rfl | rfl
      · exact hX
      · exact hY
    have hv2 : CrossEnvironmentAnalyzer.minDataPoints ≤
        (sortByTs ((sortByTs ms).filter
          (fun m => m.environment = e2))).length := by
      rw [CrossEnvironmentAnalyzer.minDataPoints, hflen]
      rcases hsub e2 (by rw [henv]; simp) with rfl | rfl
      · exact hX
      · exact hY
    have hviable : List.filter
        (fun kg => decide (CrossEnvironmentAnalyzer.minDataPoints ≤
          kg.2.length))
        [(e1, sortByTs ((sortByTs ms).filter (fun m => m.environment = e1))),
         (e2, sortByTs ((sortByTs ms).filter (fun m => m.environment = e2)))]
        =
        [(e1, sortByTs ((sortByTs ms).filter (fun m => m.environment = e1))),
         (e2, sortByTs ((sortByTs ms).filter (fun m => m.environment = e2)))]
        := by
      apply List.filter_eq_self.mpr
      intro kg hkg
      rcases List.mem_cons.mp hkg with rfl | hkg2
      · simpa using hv1
      · rcases List.mem_cons.mp hkg2 with rfl | hkg3
        · simpa using hv2
        · exact absurd hkg3 (List.not_mem_nil _)
    rw [hviable]
    rw [if_neg (by norm_num)]
    simp only [CrossEnvironmentAnalyzer.pairsOf, List.map_cons, List.map_nil,
      List.flatMap_cons, List.flatMap_nil, List.append_nil, List.nil_append]
  have habs1 : |(100:ℚ) - 160| = 60 := by
    rw [show (100:ℚ) - 160 = -60 by norm_num, abs_neg,
      abs_of_nonneg (by norm_num : (0:ℚ) ≤ 60)]
  have habs2 : |(160:ℚ) - 100| = 60 := by
    rw [show (160:ℚ) - 100 = 60 by norm_num,
      abs_of_nonneg (by norm_num : (0:ℚ) ≤ 60)]
  have hcases := pair_cases _ (keysInOrder_nodup (sortByTs ms)) hXmem hYmem
    hsub hne
  rcases hcases with henv | henv
  · -- keys = [envX, envY]: group 1 is the 100ms group
    have hg1 : rtMean (sortByTs ((sortByTs ms).filter
        (fun m => m.environment = envX))) = 100 := by rw [hfmean]; exact hmX
    have hg2 : rtMean (sortByTs ((sortByTs ms).filter
        (fun m => m.environment = envY))) = 160 := by rw [hfmean]; exact hmY
    have hrtEq : CrossEnvironmentAnalyzer.checkRtDiscrepancy apiId
        (M ++ ":" ++ E)
        (sortByTs ((sortByTs ms).filter (fun m => m.environment = envX)))
        (sortByTs ((sortByTs ms).filter (fun m => m.environment = envY)))
        envX envY =
        [createAnomaly apiId "cross_environment_response_time"
          (min 1 (60 / ((100 + 160) / 2)))
          ("Response time discrepancy between " ++ envY.value ++ " and "
            ++ envX.value ++ " environments for " ++ (M ++ ":" ++ E))
          (max 100 160) (some (min 100 160)) (some (min 100 160 * (13/10)))
          envY (some (M ++ ":" ++ E)) none] := by
      unfold CrossEnvironmentAnalyzer.checkRtDiscrepancy
      dsimp only
      rw [hg1, hg2, habs1]
      rw [if_pos (by norm_num : (60:ℚ) / ((100 + 160) / 2) > 3/10)]
      rw [if_neg (by norm_num : ¬ ((100:ℚ) > 160)),
        if_neg (by norm_num : ¬ ((100:ℚ) > 160))]
    have herEq : CrossEnvironmentAnalyzer.checkErDiscrepancy apiId
        (M ++ ":" ++ E)
        (sortByTs ((sortByTs ms).filter (fun m => m.environment = envX)))
        (sortByTs ((sortByTs ms).filter (fun m => m.environment = envY)))
        envX envY = [] := by
      unfold CrossEnvironmentAnalyzer.checkErDiscrepancy
      dsimp only
      rw [hferr, hferr]
      rw [if_neg (by norm_num), if_neg (by norm_num)]
    refine ⟨_, by rw [hpipe envX envY henv, hrtEq, herEq, List.append_nil],
      rfl, rfl, ?_, ?_, ?_, ?_⟩
    · show some (min (100:ℚ) 160) = some 100
      norm_num
    · show some (min (100:ℚ) 160 * (13/10)) = some 130
      norm_num
    · show max (100:ℚ) 160 = 160
      norm_num
    · show min 1 ((60:ℚ) / ((100 + 160) / 2)) =
        min 1 (((160:ℚ) - 100) / ((100 + 160) / 2))
      norm_num
  · -- keys = [envY, envX]: group 1 is the 160ms group
    have hg1 : rtMean (sortByTs ((sortByTs ms).filter
        (fun m => m.environment = envY))) = 160 := by rw [hfmean]; exact hmY
    have hg2 : rtMean (sortByTs ((sortByTs ms).filter
        (fun m => m.environment = envX))) = 100 := by rw [hfmean]; exact hmX
    have hrtEq : CrossEnvironmentAnalyzer.checkRtDiscrepancy apiId
        (M ++ ":" ++ E)
        (sortByTs ((sortByTs ms).filter (fun m => m.environment = envY)))
        (sortByTs ((sortByTs ms).filter (fun m => m.environment = envX)))
        envY envX =
        [createAnomaly apiId "cross_environment_response_time"
          (min 1 (60 / ((160 + 100) / 2)))
          ("Response time discrepancy between " ++ envY.value ++ " and "
            ++ envX.value ++ " environments for " ++ (M ++ ":" ++ E))
          (max 160 100) (some (min 160 100)) (some (min 160 100 * (13/10)))
          envY (some (M ++ ":" ++ E)) none] := by
      unfold CrossEnvironmentAnalyzer.checkRtDiscrepancy
      dsimp only
      rw [hg1, hg2, habs2]
      rw [if_pos (by norm_num : (60:ℚ) / ((160 + 100) / 2) > 3/10)]
      rw [if_pos (by norm_num : (160:ℚ) > 100),
        if_pos (by norm_num : (160:ℚ) > 100)]
    have herEq : CrossEnvironmentAnalyzer.checkErDiscrepancy apiId
        (M ++ ":" ++ E)
        (sortByTs ((sortByTs ms).filter (fun m => m.environment = envY)))
        (sortByTs ((sortByTs ms).filter (fun m => m.environment = envX)))
        envY envX = [] := by
      unfold CrossEnvironmentAnalyzer.checkErDiscrepancy
      dsimp only
      rw [hferr, hferr]
      rw [if_neg (by norm_num), if_neg (by norm_num)]
    refine ⟨_, by rw [hpipe envY envX henv, hrtEq, herEq, List.append_nil],
      rfl, rfl, ?_, ?_, ?_, ?_⟩
    · show some (min (160:ℚ) 100) = some 100
      norm_num
    · show some (min (160:ℚ) 100 * (13/10)) = some 130
      norm_num
    · show max (160:ℚ) 100 = 160
      norm_num
    · show min 1 ((60:ℚ) / ((160 + 100) / 2)) =
        min 1 (((160:ℚ) - 100) / ((100 + 160) / 2))
      norm_num

/-- Witness for C5: on the concrete two-environment scenario (20 on-premises
samples at 100ms, 20 aws samples at 160ms, no errors) the analyzer emits
exactly the discrepancy anomaly attributed to aws. -/
theorem claim5_witness :
    ∃ a, CrossEnvironmentAnalyzer.detectAnomalies 0 [] crossEnvScenario = [a] ∧
      a.type = "cross_environment_response_time" ∧
      a.environment = Env.aws ∧
      a.expectedValue = some 100 ∧
      a.threshold = some 130 ∧
      a.metricValue = 160 ∧
      a.severity = min 1 ((160 - 100) / ((100 + 160) / 2)) :=
  claim5_cross_env_discrepancy 0 "A" "GET" "/e" Env.onPremises Env.aws
    crossEnvScenario
    (by decide)
    (by decide)
    (by decide)
    (by decide)
    (by
      rw [show crossEnvScenario.filter
          (fun m => m.environment = Env.onPremises) = crossEnvX from rfl]
      exact rtMean_const (by decide) (fun m hm => by
        rcases List.mem_map.mp hm with ⟨i, _, rfl⟩
        rfl))
    (by
      rw [show crossEnvScenario.filter
          (fun m => m.environment = Env.aws) = crossEnvY from rfl]
      exact rtMean_const (by decide) (fun m hm => by
        rcases List.mem_map.mp hm with ⟨i, _, rfl⟩
        rfl))

end ApiMon
